import Mathlib

/-!
Formal model of the ThermalIQ ASHRAE physics engine
(src/ashrae-formulas-corrected.js), written as a shallow embedding over
the real numbers.

Modelling conventions, applied uniformly:
* JavaScript IEEE-754 arithmetic is modelled by exact real arithmetic.
* The JavaScript value Infinity, returned by getTimeToReachTemperature,
  is modelled by the `none` case of `Option ℝ`; the arithmetic the
  source performs on a possibly-infinite value (`Math.min`, `Math.max`
  with an infinite argument, comparisons) is translated by the
  corresponding case split, which agrees with IEEE semantics on every
  branch the source can take.
* Time-stepped `for (t = 0; t < bound; t += dt)` loops are modelled as
  sums over `⌈bound / dt⌉` steps, the iteration count of the ideal-real
  loop.
* Absent object fields are modelled by `Option`; JavaScript falsiness of
  a numeric field (absent or zero) is the predicate `falsyOpt`.
* String formatting (`toFixed`, clock-time rendering) is presentation
  only and is not modelled; the underlying numeric values are kept.
  The absence start time is carried as the parsed hour value.
-/

namespace ThermalIQ

noncomputable section
open Classical

/-- Insulation quality tiers accepted by the R-value matrix. -/
inductive InsulationQuality
  | poor
  | average
  | good
  | excellent

/-- Construction-era keys of the R-value matrix. -/
inductive ConstructionEra
  | before1980
  | from1980to2000
  | from2000to2010
  | after2010

/-- Window glazing types of the U_WINDOWS table. -/
inductive WindowType
  | singlePane
  | doublePane
  | triplePane
  | lowEDouble

/-- Construction material keys of CONSTRUCTION_THERMAL_MASS. -/
inductive ConstructionType
  | woodFrame
  | brick
  | concrete
  | concreteBlock
  | mixed

/-- HVAC age buckets of SEER_BY_AGE. -/
inductive HvacAge
  | under5
  | age5to10
  | age10to15
  | age15plus
  | unknownAge

/-- HVAC equipment types. -/
inductive HvacType
  | centralAC
  | heatPump
  | windowUnit

/-- Raw user inputs of analyzeThermalStrategy: every field may be absent. -/
structure UserInputs where
  floor_area : Option ℝ
  desired_temp : Option ℝ
  outdoor_temp : Option ℝ
  absence_duration : Option ℝ
  ceiling_height : Option ℝ
  num_floors : Option ℝ
  window_area_percent : Option ℝ
  num_exterior_doors : Option ℝ
  construction_type : Option ConstructionType
  construction_era : Option ConstructionEra
  insulation_quality : Option InsulationQuality
  window_type : Option WindowType
  hvac_type : Option HvacType
  hvac_age : Option HvacAge
  seer_rating : Option ℝ
  humidity : Option ℝ
  days_per_week : Option ℝ
  weeks_per_year : Option ℝ
  zip_code : Option String
  absence_start_hour : Option ℝ
  electricity_rate_manual : Option ℝ
  monthly_electric_bill : Option ℝ
  monthly_kwh_usage : Option ℝ

/-- Inputs after the default spread `{ ...defaults, ...userInputs }`. -/
structure ResolvedInputs where
  floor_area : ℝ
  desired_temp : ℝ
  outdoor_temp : ℝ
  absence_duration : ℝ
  ceiling_height : ℝ
  num_floors : ℝ
  window_area_percent : ℝ
  num_exterior_doors : ℝ
  construction_type : ConstructionType
  construction_era : ConstructionEra
  insulation_quality : InsulationQuality
  window_type : WindowType
  hvac_type : HvacType
  hvac_age : HvacAge
  seer_rating : ℝ
  humidity : ℝ
  days_per_week : ℝ
  weeks_per_year : ℝ
  zip_code : String
  absence_start_hour : Option ℝ
  electricity_rate_manual : Option ℝ
  monthly_electric_bill : Option ℝ
  monthly_kwh_usage : Option ℝ

/-- Application of the default values of analyzeThermalStrategy.  The four
required fields carry no default in the source; they are read only after
validation has established that they are present and nonzero, so `getD 0`
is never reached on the success path. -/
def resolveInputs (u : UserInputs) : ResolvedInputs where
  floor_area := u.floor_area.getD 0
  desired_temp := u.desired_temp.getD 0
  outdoor_temp := u.outdoor_temp.getD 0
  absence_duration := u.absence_duration.getD 0
  ceiling_height := u.ceiling_height.getD 8
  num_floors := u.num_floors.getD 1
  window_area_percent := u.window_area_percent.getD 15
  num_exterior_doors := u.num_exterior_doors.getD 2
  construction_type := u.construction_type.getD ConstructionType.woodFrame
  construction_era := u.construction_era.getD ConstructionEra.from1980to2000
  insulation_quality := u.insulation_quality.getD InsulationQuality.average
  window_type := u.window_type.getD WindowType.doublePane
  hvac_type := u.hvac_type.getD HvacType.centralAC
  hvac_age := u.hvac_age.getD HvacAge.age10to15
  seer_rating := u.seer_rating.getD 14
  humidity := u.humidity.getD 50
  days_per_week := u.days_per_week.getD 5
  weeks_per_year := u.weeks_per_year.getD 52
  zip_code := u.zip_code.getD "02134"
  absence_start_hour := u.absence_start_hour
  electricity_rate_manual := u.electricity_rate_manual
  monthly_electric_bill := u.monthly_electric_bill
  monthly_kwh_usage := u.monthly_kwh_usage

/-- MODULE 1: Psychrometrics. -/
def getAtmosphericPressure (altitude_ft : ℝ) : ℝ :=
  14.696 * (1 - 0.00357 * altitude_ft / 518.67) ^ (5.2559 : ℝ)

/-- Saturation pressure over the two Buck branches, converted to psia. -/
def getSaturationPressure (T_db : ℝ) : ℝ :=
  let T_c := (T_db - 32) / 1.8
  (if 0 ≤ T_c then
    0.61121 * Real.exp ((18.678 - T_c / 234.5) * (T_c / (257.14 + T_c)))
  else
    0.61115 * Real.exp ((23.036 - T_c / 333.7) * (T_c / (279.82 + T_c)))) * 0.145038

/-- Humidity ratio from dry-bulb temperature and relative humidity. -/
def getHumidityRatio (T_db RH P_atm : ℝ) : ℝ :=
  let P_w := RH / 100 * getSaturationPressure T_db
  0.62198 * P_w / (P_atm - P_w)

/-- Moist air density from the ideal gas law. -/
def getMoistAirDensity (T_db W P_atm : ℝ) : ℝ :=
  P_atm * 144 / (53.35 * (T_db + 459.67)) * (1 + W) / (1 + 1.6078 * W)

/-- Specific heat of moist air. -/
def getSpecificHeat (W : ℝ) : ℝ := 0.240 + W * 0.444

/-- Enthalpy of moist air. -/
def getEnthalpy (T_db W : ℝ) : ℝ :=
  0.240 * T_db + W * (0.444 * T_db + 1061)

/-- Bundle returned by getAirProperties. -/
structure AirProperties where
  T_db : ℝ
  RH : ℝ
  W : ℝ
  rho : ℝ
  c_p : ℝ
  h : ℝ
  P_atm : ℝ
  P_ws : ℝ
  altitude_ft : ℝ

/-- Psychrometric property bundle for the given state point. -/
def getAirProperties (T_db RH altitude_ft : ℝ) : AirProperties :=
  let P_atm := getAtmosphericPressure altitude_ft
  let W := getHumidityRatio T_db RH P_atm
  ⟨T_db, RH, W, getMoistAirDensity T_db W P_atm, getSpecificHeat W,
   getEnthalpy T_db W, P_atm, getSaturationPressure T_db, altitude_ft⟩

/-- MODULE 2: calibrated effective volumetric heat capacity per
construction type (CONSTRUCTION_THERMAL_MASS). -/
def constructionVHC : ConstructionType → ℝ
  | ConstructionType.woodFrame => 2.5
  | ConstructionType.brick => 8.0
  | ConstructionType.concrete => 12.0
  | ConstructionType.concreteBlock => 6.0
  | ConstructionType.mixed => 5.0

/-- Wall R-value matrix keyed by insulation quality and construction era. -/
def wallRValue : InsulationQuality → ConstructionEra → ℝ
  | InsulationQuality.poor, ConstructionEra.before1980 => 8
  | InsulationQuality.poor, ConstructionEra.from1980to2000 => 10
  | InsulationQuality.poor, ConstructionEra.from2000to2010 => 11
  | InsulationQuality.poor, ConstructionEra.after2010 => 13
  | InsulationQuality.average, ConstructionEra.before1980 => 11
  | InsulationQuality.average, ConstructionEra.from1980to2000 => 13
  | InsulationQuality.average, ConstructionEra.from2000to2010 => 15
  | InsulationQuality.average, ConstructionEra.after2010 => 19
  | InsulationQuality.good, ConstructionEra.before1980 => 15
  | InsulationQuality.good, ConstructionEra.from1980to2000 => 19
  | InsulationQuality.good, ConstructionEra.from2000to2010 => 21
  | InsulationQuality.good, ConstructionEra.after2010 => 25
  | InsulationQuality.excellent, ConstructionEra.before1980 => 19
  | InsulationQuality.excellent, ConstructionEra.from1980to2000 => 25
  | InsulationQuality.excellent, ConstructionEra.from2000to2010 => 30
  | InsulationQuality.excellent, ConstructionEra.after2010 => 38

/-- Window U-factor table keyed by glazing type. -/
def windowUFactor : WindowType → ℝ
  | WindowType.singlePane => 1.04
  | WindowType.doublePane => 0.49
  | WindowType.triplePane => 0.27
  | WindowType.lowEDouble => 0.33

/-- The five U-factors derived by getUFactors. -/
structure UFactors where
  wall : ℝ
  window : ℝ
  door : ℝ
  roof : ℝ
  floor : ℝ

/-- MODULE 3: getUFactors of BuildingEnvelope. -/
def getUFactors (inp : ResolvedInputs) : UFactors :=
  let r := wallRValue inp.insulation_quality inp.construction_era
  ⟨1 / r, windowUFactor inp.window_type, 0.50, 1 / (r * 1.5), 0.10⟩

/-- One envelope surface: its area and its conductance. -/
structure Surface where
  area : ℝ
  U_factor : ℝ

/-- Derived envelope components of calculateComponents. -/
structure EnvelopeComponents where
  walls : Surface
  windows : Surface
  doors : Surface
  roof : Surface
  floor : Surface
  volume : ℝ
  total_area : ℝ

/-- Geometry and surface derivation of BuildingEnvelope.calculateComponents. -/
def calculateComponents (inp : ResolvedInputs) : EnvelopeComponents :=
  let footprint_area := inp.floor_area / inp.num_floors
  let width := Real.sqrt (footprint_area / 1.5)
  let length := width * 1.5
  let perimeter := 2 * (width + length)
  let wall_height := inp.ceiling_height * inp.num_floors
  let gross_wall_area := perimeter * wall_height
  let window_area := gross_wall_area * (inp.window_area_percent / 100)
  let door_area := inp.num_exterior_doors * 21
  let net_wall_area := gross_wall_area - window_area - door_area
  let roof_area := footprint_area
  let exposed_floor_area := if inp.num_floors = 1 then footprint_area else 0
  let U := getUFactors inp
  { walls := ⟨net_wall_area, U.wall⟩
    windows := ⟨window_area, U.window⟩
    doors := ⟨door_area, U.door⟩
    roof := ⟨roof_area, U.roof⟩
    floor := ⟨exposed_floor_area, U.floor⟩
    volume := inp.floor_area * inp.ceiling_height * inp.num_floors
    total_area := net_wall_area + window_area + door_area + roof_area + exposed_floor_area }

/-- Area-weighted effective U-factor of the five components. -/
def getEffectiveUFactor (c : EnvelopeComponents) : ℝ :=
  (c.walls.U_factor * c.walls.area +
   c.windows.U_factor * c.windows.area +
   c.doors.U_factor * c.doors.area +
   c.roof.U_factor * c.roof.area +
   c.floor.U_factor * c.floor.area) / c.total_area

/-- Total heat-transfer rate of getComponentHeatTransfer, the only field
of that record consumed downstream. -/
def getComponentHeatTransferTotal (c : EnvelopeComponents) (T_indoor T_outdoor : ℝ) : ℝ :=
  getEffectiveUFactor c * c.total_area * (T_outdoor - T_indoor)

/-- MODULE 4: thermal capacitance C = effective VHC times volume. -/
def thermalCapacitance (inp : ResolvedInputs) (c : EnvelopeComponents) : ℝ :=
  constructionVHC inp.construction_type * c.volume

/-- Thermal resistance R = 1 / (U_eff times total area). -/
def thermalResistance (c : EnvelopeComponents) : ℝ :=
  1 / (getEffectiveUFactor c * c.total_area)

/-- Time constant tau = R times C. -/
def timeConstant (inp : ResolvedInputs) (c : EnvelopeComponents) : ℝ :=
  thermalResistance c * thermalCapacitance inp c

/-- Exponential relaxation law of getTemperatureAtTime. -/
def getTemperatureAtTime (tau T_initial T_outdoor time_hours : ℝ) : ℝ :=
  T_outdoor + (T_initial - T_outdoor) * Real.exp (-time_hours / tau)

/-- Inverse law of getTimeToReachTemperature.  The source returns 0 inside
the 0.1-degree dead band, Infinity (here `none`) for a non-physical
ratio, and the finite logarithmic time otherwise. -/
def getTimeToReachTemperature (tau T_initial T_target T_outdoor : ℝ) : Option ℝ :=
  if |T_initial - T_outdoor| < 0.1 then some 0
  else
    let ratio := (T_target - T_outdoor) / (T_initial - T_outdoor)
    if ratio ≤ 0 ∨ 1 ≤ ratio then none
    else some (-tau * Real.log ratio)

/-- MODULE 5: the HVAC inputs consumed by HVACPerformance. -/
structure HvacInputs where
  seer_rating : ℝ
  hvac_age : HvacAge
  hvac_type : HvacType

/-- SEER_BY_AGE default table. -/
def seerByAge : HvacAge → ℝ
  | HvacAge.under5 => 16
  | HvacAge.age5to10 => 14
  | HvacAge.age10to15 => 13
  | HvacAge.age15plus => 10
  | HvacAge.unknownAge => 13

/-- Altitude-derated effective SEER, floored at 8. -/
def getEffectiveSEER (hv : HvacInputs) (altitude_ft : ℝ) : ℝ :=
  let base :=
    if hv.seer_rating = 0 then
      let b := seerByAge hv.hvac_age
      let b1 := if hv.hvac_type = HvacType.heatPump then b + 1 else b
      if hv.hvac_type = HvacType.windowUnit then b1 - 2 else b1
    else hv.seer_rating
  max (base * (1 - 0.04 * (altitude_ft / 1000))) 8

/-- Coefficient of performance. -/
def getCOP (hv : HvacInputs) (altitude_ft : ℝ) : ℝ :=
  getEffectiveSEER hv altitude_ft / 3.412

/-- Electrical power in kW drawn to move a heat load in Btu per hour. -/
def getPowerConsumption (hv : HvacInputs) (altitude_ft Q_load_btu_hr : ℝ) : ℝ :=
  Q_load_btu_hr / 3412 / getCOP hv altitude_ft

/-- MODULE 6: energy to hold a constant temperature for a duration. -/
def energyToMaintain (c : EnvelopeComponents) (hv : HvacInputs)
    (altitude_ft T_desired T_outdoor duration_hours : ℝ) : ℝ :=
  getPowerConsumption hv altitude_ft |getComponentHeatTransferTotal c T_desired T_outdoor| *
    duration_hours

/-- Iteration count of the ideal-real loop `for (t = 0; t < bound; t += 0.05)`. -/
def stepCount (bound : ℝ) : ℕ := ⌈bound / 0.05⌉₊

/-- Break condition of the active drift loop at step i: the instantaneous
temperature has crossed the setback target. -/
def driftBreak (cooling : Bool) (tau T_desired T_setback T_outdoor : ℝ) (i : ℕ) : Prop :=
  if cooling then T_setback ≤ getTemperatureAtTime tau T_desired T_outdoor (i * 0.05)
  else getTemperatureAtTime tau T_desired T_outdoor (i * 0.05) ≤ T_setback

/-- Active-conditioning condition of the drift loop at step i. -/
def driftCond (cooling : Bool) (tau T_desired T_setback T_outdoor : ℝ) (i : ℕ) : Prop :=
  if cooling then getTemperatureAtTime tau T_desired T_outdoor (i * 0.05) < T_setback
  else T_setback < getTemperatureAtTime tau T_desired T_outdoor (i * 0.05)

/-- Index of the first step at which the drift loop breaks, if any. -/
def driftBreakIdx (cooling : Bool) (tau T_desired T_setback T_outdoor : ℝ) (n : ℕ) : Option ℕ :=
  if h : ∃ i, i < n ∧ driftBreak cooling tau T_desired T_setback T_outdoor i then
    some (Nat.find h)
  else none

/-- The else branch of phase 1 of energyWithSetback: the capped active
drift loop.  Returns the pair of drift time and cooldown energy.  The
source leaves `drift_time` at 0 when the loop breaks at its first step or
never breaks, and then replaces a zero drift time by `max_drift`. -/
def driftPhaseActive (c : EnvelopeComponents) (hv : HvacInputs)
    (altitude_ft : ℝ) (cooling : Bool)
    (tau T_desired T_setback T_outdoor max_drift : ℝ) : ℝ × ℝ :=
  let n := stepCount max_drift
  let bidx := driftBreakIdx cooling tau T_desired T_setback T_outdoor n
  let E := ∑ j ∈ Finset.range (bidx.getD n),
    (if driftCond cooling tau T_desired T_setback T_outdoor j then
      getPowerConsumption hv altitude_ft
        |getComponentHeatTransferTotal c
          (getTemperatureAtTime tau T_desired T_outdoor (j * 0.05)) T_outdoor| * 0.05
    else 0)
  let draw := match bidx with
    | some i => (i : ℝ) * 0.05
    | none => 0
  (if draw = 0 then max_drift else draw, E)

/-- Per-candidate simulation record of energyWithSetback. -/
structure SetbackEnergy where
  E_total : ℝ
  E_cooldown : ℝ
  E_maintain_setback : ℝ
  E_recovery : ℝ
  time_at_setback : ℝ
  recovery_time : ℝ
  drift_time : ℝ

/-- Cap of the active drift phase. -/
def setbackMaxDrift (tau absence_hours : ℝ) : ℝ := min (tau * 2) (absence_hours * 0.3)

/-- Phase 1 of energyWithSetback: natural drift when the natural drift
time is finite and fits within 40 percent of the absence, otherwise the
capped active loop.  Returns drift time and cooldown energy. -/
def setbackDriftPair (c : EnvelopeComponents) (hv : HvacInputs)
    (altitude_ft : ℝ) (cooling : Bool)
    (tau T_desired T_setback T_outdoor absence_hours : ℝ) : ℝ × ℝ :=
  match getTimeToReachTemperature tau T_desired T_setback T_outdoor with
  | some v =>
    if v < absence_hours * 0.4 then (min v (absence_hours * 0.4), 0)
    else driftPhaseActive c hv altitude_ft cooling tau T_desired T_setback T_outdoor
      (setbackMaxDrift tau absence_hours)
  | none => driftPhaseActive c hv altitude_ft cooling tau T_desired T_setback T_outdoor
      (setbackMaxDrift tau absence_hours)

/-- Phase 2 duration: remaining time after drift, recovery and the
quarter-hour buffer, clamped at 0; an infinite recovery time leaves no
time at setback. -/
def setbackTimeAtSetback (drift_time : ℝ) (recovery_time : Option ℝ) (absence_hours : ℝ) : ℝ :=
  match recovery_time with
  | some r => max 0 (absence_hours - drift_time - r - 0.25)
  | none => 0

/-- Recovery duration actually simulated: the recovery time capped at the
remaining absence; an infinite recovery time is capped to the whole
remainder. -/
def setbackActualRecovery (drift_time : ℝ) (recovery_time : Option ℝ) (absence_hours : ℝ) : ℝ :=
  match recovery_time with
  | some r => min r (absence_hours - drift_time)
  | none => absence_hours - drift_time

/-- Phase 3 of energyWithSetback: time-stepped actively driven recovery
energy, integrating the instantaneous load along the exponential
trajectory from the setback temperature toward the desired temperature. -/
def recoveryEnergy (c : EnvelopeComponents) (hv : HvacInputs)
    (altitude_ft tau T_desired T_setback T_outdoor actual_recovery_time : ℝ) : ℝ :=
  ∑ i ∈ Finset.range (stepCount actual_recovery_time),
    getPowerConsumption hv altitude_ft
      |getComponentHeatTransferTotal c
        (getTemperatureAtTime tau T_setback T_desired (i * 0.05)) T_outdoor| * 0.05

/-- Three-phase setback simulation of EnergyModel.energyWithSetback. -/
def energyWithSetback (c : EnvelopeComponents) (hv : HvacInputs)
    (altitude_ft tau T_desired T_setback T_outdoor absence_hours : ℝ) : SetbackEnergy :=
  let cooling : Bool := if T_desired < T_outdoor then true else false
  let driftPair := setbackDriftPair c hv altitude_ft cooling tau T_desired T_setback T_outdoor
    absence_hours
  let drift_time := driftPair.1
  let E_cooldown := driftPair.2
  let recovery_time := getTimeToReachTemperature tau T_setback T_desired T_outdoor
  let time_at_setback := setbackTimeAtSetback drift_time recovery_time absence_hours
  let E_maintain_setback := energyToMaintain c hv altitude_ft T_setback T_outdoor time_at_setback
  let actual_recovery_time := setbackActualRecovery drift_time recovery_time absence_hours
  let E_recovery := recoveryEnergy c hv altitude_ft tau T_desired T_setback T_outdoor
    actual_recovery_time
  ⟨E_cooldown + E_maintain_setback + E_recovery, E_cooldown, E_maintain_setback,
   E_recovery, time_at_setback, actual_recovery_time, drift_time⟩

/-- Action tag of a recommendation. -/
inductive Action
  | MAINTAIN
  | SETBACK

/-- Reasons attached to a MAINTAIN outcome. -/
inductive MaintainReason
  | belowBreakeven
  | savingsTooSmall
  | absenceTooShort

/-- Result record of EnergyModel.findOptimalSetback. -/
structure OptimalResult where
  action : Action
  setback_temp : ℝ
  restart_time : Option ℝ
  recovery_time : ℝ
  energy_breakdown : Option SetbackEnergy
  savings_percentage : Option ℝ
  reason : Option MaintainReason

/-- Candidate sequence produced by the search loop of findOptimalSetback.
For cooling the loop steps up from search_min while the candidate stays
at or below search_max; for heating the loop starts at search_min and
steps down while the candidate stays at or above search_min, so exactly
one candidate is visited. -/
def setbackCandidates (cooling : Bool) (s_min s_max : ℝ) : List ℝ :=
  if cooling then
    (List.range (if s_min ≤ s_max then ⌊s_max - s_min⌋₊ + 1 else 0)).map
      (fun i => s_min + i)
  else [s_min]

/-- One iteration of the search loop: the two feasibility checks, then
the running-minimum update.  State: (min_energy, optimal_setback,
optimal_results). -/
def candidateStep (c : EnvelopeComponents) (hv : HvacInputs)
    (altitude_ft tau T_desired T_outdoor absence_hours : ℝ)
    (s : ℝ × ℝ × Option SetbackEnergy) (T_setback : ℝ) : ℝ × ℝ × Option SetbackEnergy :=
  let results := energyWithSetback c hv altitude_ft tau T_desired T_setback T_outdoor absence_hours
  if absence_hours - results.drift_time - 0.25 < results.recovery_time then s
  else if results.time_at_setback < 0.5 then s
  else if results.E_total < s.1 then (results.E_total, T_setback, some results) else s

/-- The candidate temperatures actually visited by the search loop of
findOptimalSetback for the given desired and outdoor temperatures. -/
def optimizerCandidates (T_desired T_outdoor : ℝ) : List ℝ :=
  let cooling : Bool := if T_desired < T_outdoor then true else false
  let search_min := if cooling then T_desired + 2 else max (T_outdoor + 2) (T_desired - 15)
  let search_max := if cooling then min (T_outdoor - 2) (T_desired + 15) else T_desired - 2
  setbackCandidates cooling search_min search_max

/-- Grid search of EnergyModel.findOptimalSetback. -/
def findOptimalSetback (c : EnvelopeComponents) (hv : HvacInputs)
    (altitude_ft tau T_desired T_outdoor absence_hours : ℝ) : OptimalResult :=
  let E_maintain := energyToMaintain c hv altitude_ft T_desired T_outdoor absence_hours
  let final := (optimizerCandidates T_desired T_outdoor).foldl
    (candidateStep c hv altitude_ft tau T_desired T_outdoor absence_hours)
    (E_maintain, T_desired, none)
  match final.2.2 with
  | none => ⟨Action.MAINTAIN, T_desired, none, 0, none, none, some MaintainReason.absenceTooShort⟩
  | some r =>
    let savings_pct := (E_maintain - r.E_total) / E_maintain * 100
    if savings_pct < 5 then
      ⟨Action.MAINTAIN, T_desired, none, 0, none, none,
       some (if 0 < savings_pct then MaintainReason.savingsTooSmall
             else MaintainReason.absenceTooShort)⟩
    else
      ⟨Action.SETBACK, final.2.1, some (absence_hours - r.recovery_time - 0.25),
       r.recovery_time, some r, some savings_pct, none⟩

/-- Altitude lookup by the two leading characters of the zip code.  The
source falls back to 500 whenever the looked-up value is falsy, which
includes the stored value 0. -/
def getAltitudeFromZip (zip_code : String) : ℝ :=
  let p := zip_code.take 2
  let v : ℝ :=
    if p = "80" then 5280 else if p = "84" then 4500 else if p = "87" then 5000
    else if p = "33" then 0 else if p = "90" then 0 else if p = "98" then 0
    else if p = "02" then 20 else if p = "10" then 50
    else if p = "75" then 500 else if p = "30" then 1000 else if p = "85" then 1100
    else 0
  if v = 0 then 500 else v

/-- State inferred from the parsed two-digit zip code leading value. -/
def zipToState (zip_code : String) : String :=
  match (zip_code.take 2).toNat? with
  | none => "US"
  | some p =>
    if 1 ≤ p ∧ p ≤ 2 then "MA"
    else if 3 ≤ p ∧ p ≤ 14 then "NY"
    else if 15 ≤ p ∧ p ≤ 19 then "PA"
    else if 20 ≤ p ∧ p ≤ 22 then "VA"
    else if 30 ≤ p ∧ p ≤ 31 then "GA"
    else if 32 ≤ p ∧ p ≤ 34 then "FL"
    else if 60 ≤ p ∧ p ≤ 62 then "IL"
    else if 75 ≤ p ∧ p ≤ 79 then "TX"
    else if 80 ≤ p ∧ p ≤ 81 then "CO"
    else if 85 ≤ p ∧ p ≤ 86 then "AZ"
    else if 90 ≤ p ∧ p ≤ 96 then "CA"
    else if 98 ≤ p ∧ p ≤ 99 then "WA"
    else "US"

/-- Regional electricity rate table with its default. -/
def stateRate (s : String) : ℝ :=
  if s = "MA" then 0.22 else if s = "CT" then 0.21 else if s = "NH" then 0.20
  else if s = "RI" then 0.20 else if s = "CA" then 0.19 else if s = "HI" then 0.28
  else if s = "AK" then 0.23 else if s = "NY" then 0.18 else if s = "VT" then 0.18
  else if s = "FL" then 0.12 else if s = "TX" then 0.12 else if s = "LA" then 0.10
  else if s = "WA" then 0.10 else if s = "ID" then 0.10 else if s = "UT" then 0.11
  else if s = "WY" then 0.11 else if s = "OR" then 0.11
  else 0.13

/-- Falsiness of an optional numeric field: absent or zero. -/
def falsyOpt (o : Option ℝ) : Prop := o = none ∨ o = some 0

/-- Resolution order of getElectricityRate: explicit rate, bill over
usage, bill over a typical-usage estimate, regional table. -/
def getElectricityRate (inp : ResolvedInputs) : ℝ :=
  if ¬ falsyOpt inp.electricity_rate_manual then inp.electricity_rate_manual.getD 0
  else if ¬ falsyOpt inp.monthly_electric_bill ∧ ¬ falsyOpt inp.monthly_kwh_usage then
    inp.monthly_electric_bill.getD 0 / inp.monthly_kwh_usage.getD 0
  else if ¬ falsyOpt inp.monthly_electric_bill then
    inp.monthly_electric_bill.getD 0 /
      (if inp.floor_area < 1200 then 600 else if inp.floor_area < 2500 then 900 else 1200)
  else stateRate (zipToState inp.zip_code)

/-- Clock arithmetic of addHours, reduced modulo 24. -/
def addHours (startTime hoursToAdd : ℝ) : ℝ :=
  let x := startTime + hoursToAdd
  x - 24 * ⌊x / 24⌋

/-- Final recommendation record of the orchestrator. -/
structure Recommendation where
  action : Action
  temperature : ℝ
  setback_temp : ℝ
  restart_clock : Option ℝ
  return_clock : Option ℝ
  recovery_time : ℝ
  reason : Option MaintainReason
  energy_breakdown : Option SetbackEnergy
  savings_percentage : Option ℝ

/-- Savings record of the orchestrator. -/
structure SavingsInfo where
  setback_action : Bool
  energy_saved_kwh : ℝ
  energy_maintain_kwh : Option ℝ
  energy_setback_kwh : Option ℝ
  cost_saved_per_occurrence : ℝ
  cost_saved_monthly : ℝ
  cost_saved_annual : ℝ
  percent_saved : ℝ
  baseline_cost : Option ℝ
  electricity_rate : Option ℝ

/-- Diagnostics block of the analysis result. -/
structure BuildingPhysics where
  thermal_time_constant_hours : ℝ
  break_even_time_hours : ℝ
  building_volume_cuft : ℝ
  surface_area_sqft : ℝ
  thermal_capacitance_btu_per_f : ℝ
  thermal_resistance_hr_f_per_btu : ℝ
  effective_u_factor : ℝ
  altitude_ft : ℝ

/-- HVAC diagnostics block. -/
structure HvacPerformance where
  effective_seer : ℝ
  cop : ℝ

/-- Complete result of analyzeThermalStrategy. -/
structure AnalysisResult where
  recommendation : Recommendation
  savings : SavingsInfo
  building_physics : BuildingPhysics
  hvac_performance : HvacPerformance
  inputs_used : ResolvedInputs

/-- Type of the optimizer passed to the orchestrator: envelope, HVAC
inputs, altitude, tau, desired and outdoor temperatures, duration. -/
def OptimizerFun : Type :=
  EnvelopeComponents → HvacInputs → ℝ → ℝ → ℝ → ℝ → ℝ → OptimalResult

/-- Names of the required fields. -/
def requiredFieldNames : List String :=
  ["floor_area", "desired_temp", "outdoor_temp", "absence_duration"]

/-- Field access used by the validation filter. -/
def requiredField (u : UserInputs) : String → Option ℝ
  | "floor_area" => u.floor_area
  | "desired_temp" => u.desired_temp
  | "outdoor_temp" => u.outdoor_temp
  | "absence_duration" => u.absence_duration
  | _ => none

/-- Validation of analyzeThermalStrategy: the required fields whose raw
value is falsy. -/
def missingFields (u : UserInputs) : List String :=
  requiredFieldNames.filter (fun f => if falsyOpt (requiredField u f) then true else false)

/-- The break-even MAINTAIN recommendation produced without invoking the
optimizer. -/
def maintainRecommendation (inp : ResolvedInputs) : Recommendation :=
  ⟨Action.MAINTAIN, inp.desired_temp, inp.desired_temp, none, none, 0,
   some MaintainReason.belowBreakeven, none, none⟩

/-- Conversion of the optimizer outcome into the final recommendation. -/
def recommendationFromOptimal (inp : ResolvedInputs) (optimal : OptimalResult) :
    Recommendation :=
  match optimal.action with
  | Action.MAINTAIN =>
    ⟨Action.MAINTAIN, inp.desired_temp, inp.desired_temp, none, none, 0,
     optimal.reason, none, none⟩
  | Action.SETBACK =>
    let absence_start := inp.absence_start_hour.getD 8
    let restart_clock := addHours absence_start (optimal.restart_time.getD 0)
    let return_clock := addHours absence_start inp.absence_duration
    ⟨Action.SETBACK, inp.desired_temp, (round optimal.setback_temp : ℤ),
     some restart_clock, some return_clock, optimal.recovery_time, none,
     optimal.energy_breakdown, optimal.savings_percentage⟩

/-- The savings block derived from the recommendation. -/
def savingsFor (inp : ResolvedInputs) (E_maintain electricity_rate : ℝ)
    (recommendation : Recommendation) : SavingsInfo :=
  match recommendation.action with
  | Action.MAINTAIN =>
    ⟨false, 0, none, none, 0, 0, 0, 0, some (E_maintain * electricity_rate), none⟩
  | Action.SETBACK =>
    let sr := recommendation.energy_breakdown.getD ⟨0, 0, 0, 0, 0, 0, 0⟩
    let E_saved := max 0 (E_maintain - sr.E_total)
    let cost_saved := E_saved * electricity_rate
    let cost_saved_monthly := cost_saved * inp.days_per_week * 4.33
    let cost_saved_annual := cost_saved * inp.days_per_week * inp.weeks_per_year
    ⟨true, E_saved, some E_maintain, some sr.E_total, cost_saved, cost_saved_monthly,
     (round cost_saved_annual : ℤ), E_saved / E_maintain * 100, none,
     some electricity_rate⟩

/-- Success-path computation of the orchestrator. -/
def analysisOutcome (opt : OptimizerFun) (u : UserInputs) : AnalysisResult :=
  let inp := resolveInputs u
  let altitude_ft := getAltitudeFromZip inp.zip_code
  let airProps := getAirProperties inp.outdoor_temp inp.humidity altitude_ft
  let c := calculateComponents inp
  let tau := timeConstant inp c
  let hv : HvacInputs := ⟨inp.seer_rating, inp.hvac_age, inp.hvac_type⟩
  let t_breakeven := 2.5 * tau
  let recommendation : Recommendation :=
    if inp.absence_duration < t_breakeven then maintainRecommendation inp
    else recommendationFromOptimal inp
      (opt c hv airProps.altitude_ft tau inp.desired_temp inp.outdoor_temp
        inp.absence_duration)
  let electricity_rate := getElectricityRate inp
  let E_maintain := energyToMaintain c hv airProps.altitude_ft inp.desired_temp
    inp.outdoor_temp inp.absence_duration
  ⟨recommendation, savingsFor inp E_maintain electricity_rate recommendation,
   ⟨tau, t_breakeven, c.volume, c.total_area, thermalCapacitance inp c,
    thermalResistance c, getEffectiveUFactor c, altitude_ft⟩,
   ⟨getEffectiveSEER hv airProps.altitude_ft, getCOP hv airProps.altitude_ft⟩,
   inp⟩

/-- The orchestrator, parametrized by the optimizer it invokes so that
non-invocation on the short-absence path is expressible. -/
def analyzeWith (opt : OptimizerFun) (u : UserInputs) : Except (List String) AnalysisResult :=
  if missingFields u = [] then Except.ok (analysisOutcome opt u)
  else Except.error (missingFields u)

/-- MODULE 7: the master analysis function. -/
def analyzeThermalStrategy (u : UserInputs) : Except (List String) AnalysisResult :=
  analyzeWith findOptimalSetback u

/-- A concrete resolved input: the typical_workday test building with all
source defaults. -/
def stdInputs : ResolvedInputs :=
  ⟨2000, 72, 85, 8, 8, 1, 15, 2, ConstructionType.woodFrame, ConstructionEra.from1980to2000,
   InsulationQuality.average, WindowType.doublePane, HvacType.centralAC, HvacAge.age10to15,
   14, 50, 5, 52, "02134", none, none, none, none⟩

/-- C1, evaluation at the failing input: for the heating case with
desired 70 and outdoor 30 the search loop visits only the single
candidate search_min = 55, although the claimed mirrored range below the
desired temperature also contains, for instance, 60. -/
theorem c1_heating_single_candidate :
    optimizerCandidates 70 30 = [55] ∧
    (60 : ℝ) ∉ optimizerCandidates 70 30 ∧
    max ((30 : ℝ) + 2) (70 - 15) ≤ 60 ∧ (60 : ℝ) ≤ 70 - 2 := by
  have hcool : (if (70 : ℝ) < 30 then true else false) = false := by norm_num
  have hlist : optimizerCandidates 70 30 = [max ((30 : ℝ) + 2) (70 - 15)] := by
    simp only [optimizerCandidates, hcool, setbackCandidates, if_false, Bool.false_eq_true]
  have hmax : max ((30 : ℝ) + 2) (70 - 15) = 55 := by
    rw [max_eq_right] <;> norm_num
  refine ⟨by rw [hlist, hmax], ?_, by rw [hmax]; norm_num, by norm_num⟩
  rw [hlist, hmax]
  simp only [List.mem_singleton]
  norm_num

/-- C2, counterexample: for the typical workday building the thermal
capacitance equals the construction volumetric heat capacity times the
conditioned volume exactly, with no 0.85 participation factor (so it is
not strictly below that product), and changing the insulation quality
does not change it. -/
theorem c2_counterexample :
    thermalCapacitance stdInputs (calculateComponents stdInputs) =
      constructionVHC ConstructionType.woodFrame * (2000 * 8 * 1) ∧
    ¬ (thermalCapacitance stdInputs (calculateComponents stdInputs) <
      constructionVHC ConstructionType.woodFrame * (2000 * 8 * 1)) ∧
    thermalCapacitance
        { stdInputs with insulation_quality := InsulationQuality.poor }
        (calculateComponents { stdInputs with insulation_quality := InsulationQuality.poor }) =
      thermalCapacitance
        { stdInputs with insulation_quality := InsulationQuality.excellent }
        (calculateComponents
          { stdInputs with insulation_quality := InsulationQuality.excellent }) := by
  refine ⟨rfl, ?_, rfl⟩
  have h : thermalCapacitance stdInputs (calculateComponents stdInputs) =
      constructionVHC ConstructionType.woodFrame * (2000 * 8 * 1) := rfl
  rw [h]
  exact lt_irrefl _

/-- C2, amended: the thermal capacitance is exactly the per-construction
volumetric heat capacity times the conditioned volume, with no thermal
participation factor, and it does not depend on the insulation quality. -/
theorem c2_capacitance_formula (inp : ResolvedInputs) :
    thermalCapacitance inp (calculateComponents inp) =
      constructionVHC inp.construction_type *
        (inp.floor_area * inp.ceiling_height * inp.num_floors) ∧
    ∀ q : InsulationQuality,
      thermalCapacitance { inp with insulation_quality := q }
        (calculateComponents { inp with insulation_quality := q }) =
      thermalCapacitance inp (calculateComponents inp) :=
  ⟨rfl, fun _ => rfl⟩

/-- C3, counterexample: with the initial temperature within the 0.1
degree dead band of the outdoor temperature, the target 90 lies on the
wrong side (the ratio is nonpositive), yet the function returns the
finite time 0 rather than the claimed infinite result. -/
theorem c3_counterexample :
    getTimeToReachTemperature 5 70 90 70.05 = some 0 ∧
    ((90 : ℝ) - 70.05) / (70 - 70.05) ≤ 0 ∧
    (some (0 : ℝ) ≠ (none : Option ℝ)) := by
  refine ⟨?_, by norm_num, by simp⟩
  have h : |(70 : ℝ) - 70.05| < 0.1 := by
    rw [abs_lt]
    constructor <;> norm_num
  simp only [getTimeToReachTemperature, if_pos h]

/-- Outside the dead band, a ratio strictly between 0 and 1 yields the
finite logarithmic time. -/
lemma timeToReach_eq_some (tau T_initial T_target T_outdoor : ℝ)
    (hdb : 0.1 ≤ |T_initial - T_outdoor|)
    (h1 : 0 < (T_target - T_outdoor) / (T_initial - T_outdoor))
    (h2 : (T_target - T_outdoor) / (T_initial - T_outdoor) < 1) :
    getTimeToReachTemperature tau T_initial T_target T_outdoor =
      some (-tau * Real.log ((T_target - T_outdoor) / (T_initial - T_outdoor))) := by
  have hdb2 : ¬ |T_initial - T_outdoor| < 0.1 := not_lt.mpr hdb
  have hr : ¬ ((T_target - T_outdoor) / (T_initial - T_outdoor) ≤ 0 ∨
      1 ≤ (T_target - T_outdoor) / (T_initial - T_outdoor)) := by
    push_neg
    exact ⟨h1, h2⟩
  simp only [getTimeToReachTemperature, if_neg hdb2, if_neg hr]

/-- Outside the dead band, a nonpositive ratio or a ratio at least 1
yields the infinite result. -/
lemma timeToReach_eq_none (tau T_initial T_target T_outdoor : ℝ)
    (hdb : 0.1 ≤ |T_initial - T_outdoor|)
    (hr : (T_target - T_outdoor) / (T_initial - T_outdoor) ≤ 0 ∨
      1 ≤ (T_target - T_outdoor) / (T_initial - T_outdoor)) :
    getTimeToReachTemperature tau T_initial T_target T_outdoor = none := by
  have hdb2 : ¬ |T_initial - T_outdoor| < 0.1 := not_lt.mpr hdb
  simp only [getTimeToReachTemperature, if_neg hdb2, if_pos hr]

/-- C3, amended: the function returns 0 whenever the initial temperature
is within 0.1 degree of the outdoor temperature, in particular when the
two are equal, regardless of the target; outside that dead band it is
infinite exactly when the ratio is nonpositive or at least 1, and for a
ratio strictly between 0 and 1 it returns the finite time
minus tau times log ratio. -/
theorem c3_timeToReach_cases (tau T_initial T_target T_outdoor : ℝ) :
    (|T_initial - T_outdoor| < 0.1 →
      getTimeToReachTemperature tau T_initial T_target T_outdoor = some 0) ∧
    (0.1 ≤ |T_initial - T_outdoor| →
      (getTimeToReachTemperature tau T_initial T_target T_outdoor = none ↔
        (T_target - T_outdoor) / (T_initial - T_outdoor) ≤ 0 ∨
          1 ≤ (T_target - T_outdoor) / (T_initial - T_outdoor)) ∧
      (0 < (T_target - T_outdoor) / (T_initial - T_outdoor) →
        (T_target - T_outdoor) / (T_initial - T_outdoor) < 1 →
        getTimeToReachTemperature tau T_initial T_target T_outdoor =
          some (-tau * Real.log ((T_target - T_outdoor) / (T_initial - T_outdoor))))) := by
  constructor
  · intro h
    simp only [getTimeToReachTemperature, if_pos h]
  · intro h
    refine ⟨?_, fun h1 h2 => timeToReach_eq_some tau _ _ _ h h1 h2⟩
    by_cases hr : (T_target - T_outdoor) / (T_initial - T_outdoor) ≤ 0 ∨
        1 ≤ (T_target - T_outdoor) / (T_initial - T_outdoor)
    · exact iff_of_true (timeToReach_eq_none tau _ _ _ h hr) hr
    · push_neg at hr
      rw [timeToReach_eq_some tau _ _ _ h hr.1 hr.2]
      simp only [iff_false_intro (not_or.mpr ⟨not_le.mpr hr.1, not_le.mpr hr.2⟩), iff_false]
      exact fun hc => Option.noConfusion hc

/-- C3, witness for the amended theorem at a concrete point outside the
dead band with ratio one half. -/
theorem c3_witness :
    (0.1 : ℝ) ≤ |(70 : ℝ) - 80| ∧
    getTimeToReachTemperature 5 70 75 80 =
      some (-5 * Real.log (((75 : ℝ) - 80) / (70 - 80))) :=
  ⟨by rw [abs_of_nonpos (by norm_num)]; norm_num,
   ((c3_timeToReach_cases 5 70 75 80).2
     (by rw [abs_of_nonpos (by norm_num)]; norm_num)).2
     (by norm_num) (by norm_num)⟩

/-- C4, counterexample: inside the 0.1 degree dead band the intermediate
temperature after one hour lies strictly between the two temperatures,
yet the round trip returns 0 instead of the elapsed time 1. -/
theorem c4_counterexample :
    (70 < getTemperatureAtTime 5 70 70.05 1 ∧ getTemperatureAtTime 5 70 70.05 1 < 70.05) ∧
    getTimeToReachTemperature 5 70 (getTemperatureAtTime 5 70 70.05 1) 70.05 = some 0 ∧
    (some (0 : ℝ) ≠ some (1 : ℝ)) := by
  have he1 : Real.exp (-(1 : ℝ) / 5) < 1 := Real.exp_lt_one_iff.mpr (by norm_num)
  have he0 : 0 < Real.exp (-(1 : ℝ) / 5) := Real.exp_pos _
  refine ⟨⟨?_, ?_⟩, ?_, by simp⟩
  · simp only [getTemperatureAtTime]
    nlinarith
  · simp only [getTemperatureAtTime]
    nlinarith
  · have h : |(70 : ℝ) - 70.05| < 0.1 := by
      rw [abs_lt]
      constructor <;> norm_num
    simp only [getTimeToReachTemperature, if_pos h]

/-- C4, amended: the round trip timeToReach of temperatureAt recovers the
elapsed time exactly, for positive tau and time, provided the initial and
outdoor temperatures differ by at least the 0.1 degree dead band, the
intermediate temperature lying strictly between them. -/
theorem c4_roundtrip (tau t T_initial T_outdoor : ℝ) (htau : 0 < tau) (ht : 0 < t)
    (hdb : 0.1 ≤ |T_initial - T_outdoor|)
    (_ : getTemperatureAtTime tau T_initial T_outdoor t ∈
      Set.Ioo (min T_initial T_outdoor) (max T_initial T_outdoor)) :
    getTimeToReachTemperature tau T_initial (getTemperatureAtTime tau T_initial T_outdoor t)
      T_outdoor = some t := by
  have hne : T_initial - T_outdoor ≠ 0 := by
    intro h
    rw [h, abs_zero] at hdb
    linarith
  have hratio : (getTemperatureAtTime tau T_initial T_outdoor t - T_outdoor) /
      (T_initial - T_outdoor) = Real.exp (-t / tau) := by
    simp only [getTemperatureAtTime]
    field_simp
  have hpos : 0 < Real.exp (-t / tau) := Real.exp_pos _
  have hlt : Real.exp (-t / tau) < 1 := by
    apply Real.exp_lt_one_iff.mpr
    rw [neg_div]
    have : 0 < t / tau := div_pos ht htau
    linarith
  rw [timeToReach_eq_some tau _ _ _ hdb (by rw [hratio]; exact hpos) (by rw [hratio]; exact hlt),
    hratio, Real.log_exp]
  congr 1
  field_simp

/-- C4, witness for the amended round trip at tau 5, one hour, and a 10
degree gradient. -/
theorem c4_witness :
    (0 : ℝ) < 5 ∧ (0 : ℝ) < 1 ∧ (0.1 : ℝ) ≤ |(70 : ℝ) - 80| ∧
    getTimeToReachTemperature 5 70 (getTemperatureAtTime 5 70 80 1) 80 = some 1 := by
  have hdb : (0.1 : ℝ) ≤ |(70 : ℝ) - 80| := by
    rw [abs_of_nonpos (by norm_num)]
    norm_num
  have he1 : Real.exp (-(1 : ℝ) / 5) < 1 := Real.exp_lt_one_iff.mpr (by norm_num)
  have he0 : 0 < Real.exp (-(1 : ℝ) / 5) := Real.exp_pos _
  have hmid : getTemperatureAtTime 5 70 80 1 ∈
      Set.Ioo (min (70 : ℝ) 80) (max (70 : ℝ) 80) := by
    rw [Set.mem_Ioo, min_eq_left (by norm_num), max_eq_right (by norm_num)]
    constructor <;> (simp only [getTemperatureAtTime]; nlinarith)
  exact ⟨by norm_num, by norm_num, hdb, c4_roundtrip 5 1 70 80 (by norm_num) (by norm_num) hdb hmid⟩

/-- C8: for a positive nominal rating the effective rating is the
altitude-derated nominal rating floored at 8, the coefficient of
performance is the effective rating over 3.412, and the coefficient of
performance is always at least 8 over 3.412. -/
theorem c8_hvac_derating (hv : HvacInputs) (altitude_ft : ℝ) (h : 0 < hv.seer_rating) :
    getEffectiveSEER hv altitude_ft = max (hv.seer_rating * (1 - 0.04 * (altitude_ft / 1000))) 8 ∧
    getCOP hv altitude_ft = getEffectiveSEER hv altitude_ft / 3.412 ∧
    8 / 3.412 ≤ getCOP hv altitude_ft := by
  have hne : hv.seer_rating ≠ 0 := ne_of_gt h
  have hseer : getEffectiveSEER hv altitude_ft =
      max (hv.seer_rating * (1 - 0.04 * (altitude_ft / 1000))) 8 := by
    simp only [getEffectiveSEER, if_neg hne]
  refine ⟨hseer, rfl, ?_⟩
  have h8 : (8 : ℝ) ≤ getEffectiveSEER hv altitude_ft := by
    rw [hseer]
    exact le_max_right _ _
  unfold getCOP
  apply div_le_div_of_nonneg_right h8 (by norm_num) |>.trans_eq rfl

/-- C8, witness at nominal rating 14 and altitude 1000 feet. -/
theorem c8_witness :
    (0 : ℝ) < 14 ∧
    8 / 3.412 ≤ getCOP ⟨14, HvacAge.age10to15, HvacType.centralAC⟩ 1000 :=
  ⟨by norm_num, (c8_hvac_derating ⟨14, HvacAge.age10to15, HvacType.centralAC⟩ 1000
    (by norm_num)).2.2⟩

/-- The coefficient of performance is always positive, because the
effective rating is floored at 8. -/
lemma getCOP_pos (hv : HvacInputs) (altitude_ft : ℝ) : 0 < getCOP hv altitude_ft := by
  simp only [getCOP, getEffectiveSEER]
  apply div_pos _ (by norm_num)
  exact lt_of_lt_of_le (by norm_num) (le_max_right _ 8)

/-- Power drawn against an absolute load is nonnegative. -/
lemma power_abs_nonneg (hv : HvacInputs) (altitude_ft x : ℝ) :
    0 ≤ getPowerConsumption hv altitude_ft |x| :=
  div_nonneg (div_nonneg (abs_nonneg x) (by norm_num)) (getCOP_pos hv altitude_ft).le

/-- Maintain energy over a nonnegative duration is nonnegative. -/
lemma energyToMaintain_nonneg (c : EnvelopeComponents) (hv : HvacInputs)
    (altitude_ft T_desired T_outdoor duration_hours : ℝ) (hd : 0 ≤ duration_hours) :
    0 ≤ energyToMaintain c hv altitude_ft T_desired T_outdoor duration_hours :=
  mul_nonneg (power_abs_nonneg hv altitude_ft _) hd

/-- Cooldown energy of the active drift loop is nonnegative. -/
lemma driftPhaseActive_snd_nonneg (c : EnvelopeComponents) (hv : HvacInputs)
    (altitude_ft : ℝ) (cooling : Bool) (tau T_desired T_setback T_outdoor max_drift : ℝ) :
    0 ≤ (driftPhaseActive c hv altitude_ft cooling tau T_desired T_setback T_outdoor
      max_drift).2 := by
  simp only [driftPhaseActive]
  apply Finset.sum_nonneg
  intro j _
  by_cases hc : driftCond cooling tau T_desired T_setback T_outdoor j
  · rw [if_pos hc]
    exact mul_nonneg (power_abs_nonneg hv altitude_ft _) (by norm_num)
  · rw [if_neg hc]

/-- Cooldown energy of phase 1 is nonnegative. -/
lemma setbackDriftPair_snd_nonneg (c : EnvelopeComponents) (hv : HvacInputs)
    (altitude_ft : ℝ) (cooling : Bool) (tau T_desired T_setback T_outdoor absence_hours : ℝ) :
    0 ≤ (setbackDriftPair c hv altitude_ft cooling tau T_desired T_setback T_outdoor
      absence_hours).2 := by
  unfold setbackDriftPair
  cases h : getTimeToReachTemperature tau T_desired T_setback T_outdoor with
  | none => exact driftPhaseActive_snd_nonneg c hv altitude_ft cooling tau _ _ _ _
  | some v =>
    dsimp only
    by_cases hv4 : v < absence_hours * 0.4
    · rw [if_pos hv4]
    · rw [if_neg hv4]
      exact driftPhaseActive_snd_nonneg c hv altitude_ft cooling tau _ _ _ _

/-- Time at setback is clamped nonnegative. -/
lemma setbackTimeAtSetback_nonneg (drift_time : ℝ) (recovery_time : Option ℝ)
    (absence_hours : ℝ) : 0 ≤ setbackTimeAtSetback drift_time recovery_time absence_hours := by
  cases recovery_time with
  | none => exact le_refl 0
  | some r => exact le_max_left 0 _

/-- Recovery energy is nonnegative. -/
lemma recoveryEnergy_nonneg (c : EnvelopeComponents) (hv : HvacInputs)
    (altitude_ft tau T_desired T_setback T_outdoor actual_recovery_time : ℝ) :
    0 ≤ recoveryEnergy c hv altitude_ft tau T_desired T_setback T_outdoor
      actual_recovery_time := by
  apply Finset.sum_nonneg
  intro i _
  exact mul_nonneg (power_abs_nonneg hv altitude_ft _) (by norm_num)

/-- Field equations of energyWithSetback in terms of the phase pieces. -/
lemma energyWithSetback_eq (c : EnvelopeComponents) (hv : HvacInputs)
    (altitude_ft tau T_desired T_setback T_outdoor absence_hours : ℝ) :
    energyWithSetback c hv altitude_ft tau T_desired T_setback T_outdoor absence_hours =
      let cooling : Bool := if T_desired < T_outdoor then true else false
      let driftPair := setbackDriftPair c hv altitude_ft cooling tau T_desired T_setback
        T_outdoor absence_hours
      let recovery_time := getTimeToReachTemperature tau T_setback T_desired T_outdoor
      let time_at_setback := setbackTimeAtSetback driftPair.1 recovery_time absence_hours
      let E_maintain_setback := energyToMaintain c hv altitude_ft T_setback T_outdoor
        time_at_setback
      let actual_recovery_time := setbackActualRecovery driftPair.1 recovery_time absence_hours
      let E_recovery := recoveryEnergy c hv altitude_ft tau T_desired T_setback T_outdoor
        actual_recovery_time
      ⟨driftPair.2 + E_maintain_setback + E_recovery, driftPair.2, E_maintain_setback,
       E_recovery, time_at_setback, actual_recovery_time, driftPair.1⟩ := rfl

/-- The simulated total energy of a candidate is nonnegative. -/
lemma energyWithSetback_E_total_nonneg (c : EnvelopeComponents) (hv : HvacInputs)
    (altitude_ft tau T_desired T_setback T_outdoor absence_hours : ℝ) :
    0 ≤ (energyWithSetback c hv altitude_ft tau T_desired T_setback T_outdoor
      absence_hours).E_total := by
  rw [energyWithSetback_eq]
  refine add_nonneg (add_nonneg (setbackDriftPair_snd_nonneg c hv altitude_ft _ tau _ _ _ _) ?_)
    (recoveryEnergy_nonneg c hv altitude_ft tau _ _ _ _)
  exact energyToMaintain_nonneg c hv altitude_ft _ _ _
    (setbackTimeAtSetback_nonneg _ _ _)

/-- The two feasibility checks recorded for a stored candidate. -/
def passedChecks (absence_hours : ℝ) (b : SetbackEnergy) : Prop :=
  b.recovery_time ≤ absence_hours - b.drift_time - 0.25 ∧ 0.5 ≤ b.time_at_setback

/-- Invariant of the running state of the search loop. -/
def searchInv (E_maintain absence_hours : ℝ) (s : ℝ × ℝ × Option SetbackEnergy) : Prop :=
  s.1 ≤ E_maintain ∧
    (s.2.2 = none ∨ ∃ b, s.2.2 = some b ∧ passedChecks absence_hours b ∧
      0 ≤ b.E_total ∧ b.E_total = s.1 ∧ s.1 < E_maintain)

/-- One search step preserves the invariant. -/
lemma candidateStep_inv (c : EnvelopeComponents) (hv : HvacInputs)
    (altitude_ft tau T_desired T_outdoor absence_hours E_maintain : ℝ)
    (s : ℝ × ℝ × Option SetbackEnergy) (T_setback : ℝ)
    (hs : searchInv E_maintain absence_hours s) :
    searchInv E_maintain absence_hours
      (candidateStep c hv altitude_ft tau T_desired T_outdoor absence_hours s T_setback) := by
  unfold candidateStep
  by_cases h1 : absence_hours -
      (energyWithSetback c hv altitude_ft tau T_desired T_setback T_outdoor
        absence_hours).drift_time - 0.25 <
      (energyWithSetback c hv altitude_ft tau T_desired T_setback T_outdoor
        absence_hours).recovery_time
  · rw [if_pos h1]
    exact hs
  · rw [if_neg h1]
    by_cases h2 : (energyWithSetback c hv altitude_ft tau T_desired T_setback T_outdoor
        absence_hours).time_at_setback < 0.5
    · rw [if_pos h2]
      exact hs
    · rw [if_neg h2]
      by_cases h3 : (energyWithSetback c hv altitude_ft tau T_desired T_setback T_outdoor
          absence_hours).E_total < s.1
      · rw [if_pos h3]
        have hlt : (energyWithSetback c hv altitude_ft tau T_desired T_setback T_outdoor
            absence_hours).E_total < E_maintain := lt_of_lt_of_le h3 hs.1
        exact ⟨hlt.le, Or.inr ⟨_, rfl, ⟨not_lt.mp h1, not_lt.mp h2⟩,
          energyWithSetback_E_total_nonneg c hv altitude_ft tau _ _ _ _, rfl, hlt⟩⟩
      · rw [if_neg h3]
        exact hs

/-- The whole search fold preserves the invariant. -/
lemma searchFold_inv (c : EnvelopeComponents) (hv : HvacInputs)
    (altitude_ft tau T_desired T_outdoor absence_hours E_maintain : ℝ)
    (l : List ℝ) (s : ℝ × ℝ × Option SetbackEnergy)
    (hs : searchInv E_maintain absence_hours s) :
    searchInv E_maintain absence_hours
      (l.foldl (candidateStep c hv altitude_ft tau T_desired T_outdoor absence_hours) s) := by
  induction l generalizing s with
  | nil => exact hs
  | cons a t ih =>
    exact ih _ (candidateStep_inv c hv altitude_ft tau T_desired T_outdoor absence_hours
      E_maintain s a hs)

/-- The validation list is empty exactly when none of the four required
raw fields is falsy. -/
lemma missingFields_nil_iff (u : UserInputs) :
    missingFields u = [] ↔
      ¬ (falsyOpt u.floor_area ∨ falsyOpt u.desired_temp ∨ falsyOpt u.outdoor_temp ∨
        falsyOpt u.absence_duration) := by
  by_cases h1 : falsyOpt u.floor_area <;>
    by_cases h2 : falsyOpt u.desired_temp <;>
      by_cases h3 : falsyOpt u.outdoor_temp <;>
        by_cases h4 : falsyOpt u.absence_duration <;>
          simp [missingFields, requiredFieldNames, requiredField, h1, h2, h3, h4]

/-- C7, counterexample: an input in which all four required fields are
present, with outdoor temperature present but equal to 0, is rejected by
the validation even though nothing is absent. -/
def c7Bad : UserInputs :=
  ⟨some 2000, some 72, some 0, some 8, none, none, none, none, none, none, none, none,
   none, none, none, none, none, none, none, none, none, none, none⟩

/-- C7, counterexample theorem: every required field of c7Bad is present,
yet the analysis fails fast naming outdoor_temp. -/
theorem c7_counterexample :
    c7Bad.floor_area ≠ none ∧ c7Bad.desired_temp ≠ none ∧
    c7Bad.outdoor_temp ≠ none ∧ c7Bad.absence_duration ≠ none ∧
    analyzeThermalStrategy c7Bad = Except.error ["outdoor_temp"] := by
  have hm : missingFields c7Bad = ["outdoor_temp"] := by
    simp [missingFields, requiredFieldNames, requiredField, falsyOpt, c7Bad]
  refine ⟨by simp [c7Bad], by simp [c7Bad], by simp [c7Bad], by simp [c7Bad], ?_⟩
  simp only [analyzeThermalStrategy, analyzeWith, hm]
  rw [if_neg (by simp)]

/-- C7, amended: the analysis fails fast, before any physics computation
and independently of the optimizer, with the list of required field names
whose raw value is falsy (absent or zero), exactly when at least one of
floor area, desired temperature, outdoor temperature or absence duration
is absent or zero; otherwise it succeeds. -/
theorem c7_validation (u : UserInputs) :
    ((falsyOpt u.floor_area ∨ falsyOpt u.desired_temp ∨ falsyOpt u.outdoor_temp ∨
        falsyOpt u.absence_duration) →
      (∀ opt : OptimizerFun, analyzeWith opt u = Except.error (missingFields u)) ∧
        missingFields u ≠ []) ∧
    (¬ (falsyOpt u.floor_area ∨ falsyOpt u.desired_temp ∨ falsyOpt u.outdoor_temp ∨
        falsyOpt u.absence_duration) →
      ∃ r, analyzeThermalStrategy u = Except.ok r) := by
  constructor
  · intro hf
    have hne : missingFields u ≠ [] := by
      intro h0
      exact (missingFields_nil_iff u).mp h0 hf
    exact ⟨fun opt => by simp only [analyzeWith]; rw [if_neg hne], hne⟩
  · intro hnf
    have h0 : missingFields u = [] := (missingFields_nil_iff u).mpr hnf
    refine ⟨analysisOutcome findOptimalSetback u, ?_⟩
    simp only [analyzeThermalStrategy, analyzeWith, h0]
    simp

/-- C7, witness: an input with all four required fields present and
nonzero is accepted. -/
def c7Good : UserInputs :=
  ⟨some 2000, some 72, some 85, some 8, none, none, none, none, none, none, none, none,
   none, none, none, none, none, none, none, none, none, none, none⟩

/-- C7, witness theorem: c7Good has no falsy required field and the
analysis succeeds on it. -/
theorem c7_witness :
    ¬ (falsyOpt c7Good.floor_area ∨ falsyOpt c7Good.desired_temp ∨
      falsyOpt c7Good.outdoor_temp ∨ falsyOpt c7Good.absence_duration) ∧
    ∃ r, analyzeThermalStrategy c7Good = Except.ok r := by
  have hnf : ¬ (falsyOpt c7Good.floor_area ∨ falsyOpt c7Good.desired_temp ∨
      falsyOpt c7Good.outdoor_temp ∨ falsyOpt c7Good.absence_duration) := by
    simp [falsyOpt, c7Good]
  exact ⟨hnf, (c7_validation c7Good).2 hnf⟩

/-- Numerator of the area-weighted effective U-factor: the summed
conductance-area product of the five components. -/
def envelopeUA (c : EnvelopeComponents) : ℝ :=
  c.walls.U_factor * c.walls.area + c.windows.U_factor * c.windows.area +
  c.doors.U_factor * c.doors.area + c.roof.U_factor * c.roof.area +
  c.floor.U_factor * c.floor.area

/-- The effective U-factor is that sum over the total area. -/
lemma getEffectiveUFactor_eq (c : EnvelopeComponents) :
    getEffectiveUFactor c = envelopeUA c / c.total_area := rfl

/-- For a nonzero total area the total heat-transfer rate is the summed
conductance-area product times the temperature difference. -/
lemma heatTransferTotal_eq (c : EnvelopeComponents) (T_indoor T_outdoor : ℝ)
    (hA : c.total_area ≠ 0) :
    getComponentHeatTransferTotal c T_indoor T_outdoor =
      envelopeUA c * (T_outdoor - T_indoor) := by
  unfold getComponentHeatTransferTotal
  rw [getEffectiveUFactor_eq, div_mul_cancel₀ _ hA]

/-- For a nonzero total area the time constant is capacitance over the
summed conductance-area product. -/
lemma timeConstant_eq (inp : ResolvedInputs) (c : EnvelopeComponents)
    (hA : c.total_area ≠ 0) :
    timeConstant inp c = thermalCapacitance inp c / envelopeUA c := by
  unfold timeConstant thermalResistance
  rw [getEffectiveUFactor_eq, div_mul_cancel₀ _ hA, one_div_mul_eq_div]

/-- Bounds for the footprint width of the 2000 square foot single-story
building. -/
lemma sqrt_std_bounds :
    36.51 < Real.sqrt (2000 / 1 / 1.5) ∧ Real.sqrt (2000 / 1 / 1.5) < 36.52 := by
  have harg : (2000 : ℝ) / 1 / 1.5 = 4000 / 3 := by norm_num
  rw [harg]
  have h := Real.sq_sqrt (show (0 : ℝ) ≤ 4000 / 3 by norm_num)
  have hnn := Real.sqrt_nonneg ((4000 : ℝ) / 3)
  constructor <;> nlinarith [h, hnn]

/-- Summed conductance-area product of the standard building. -/
lemma envelopeUA_std_bounds :
    523 < envelopeUA (calculateComponents stdInputs) ∧
    envelopeUA (calculateComponents stdInputs) < 523.5 := by
  obtain ⟨hl, hr⟩ := sqrt_std_bounds
  simp only [envelopeUA, calculateComponents, getUFactors, stdInputs, wallRValue,
    windowUFactor]
  simp only [if_true]
  constructor <;> nlinarith [hl, hr]

/-- Total exterior area of the standard building is positive. -/
lemma total_area_std_pos : 0 < (calculateComponents stdInputs).total_area := by
  obtain ⟨hl, hr⟩ := sqrt_std_bounds
  simp only [calculateComponents, stdInputs]
  simp only [if_true]
  nlinarith [hl, hr]

/-- Time constant bounds for any resolved input sharing the standard
envelope and the wood-frame construction default. -/
lemma tau_std_bounds (inp : ResolvedInputs)
    (henv : calculateComponents inp = calculateComponents stdInputs)
    (hct : inp.construction_type = ConstructionType.woodFrame) :
    76.4 < timeConstant inp (calculateComponents inp) ∧
    timeConstant inp (calculateComponents inp) < 76.49 := by
  obtain ⟨hUAl, hUAr⟩ := envelopeUA_std_bounds
  have hA : (calculateComponents stdInputs).total_area ≠ 0 := ne_of_gt total_area_std_pos
  have hvol : (calculateComponents stdInputs).volume = 16000 := by
    simp only [calculateComponents, stdInputs]
    norm_num
  have hcap : thermalCapacitance inp (calculateComponents stdInputs) = 40000 := by
    unfold thermalCapacitance
    rw [hct, hvol]
    norm_num [constructionVHC]
  rw [henv, timeConstant_eq inp _ hA, hcap]
  have hUApos : 0 < envelopeUA (calculateComponents stdInputs) := by linarith
  constructor
  · rw [lt_div_iff₀ hUApos]
    nlinarith
  · rw [div_lt_iff₀ hUApos]
    nlinarith

/-- Minimum of the five component U-factors. -/
def componentUmin (c : EnvelopeComponents) : ℝ :=
  min (min (min (min c.walls.U_factor c.windows.U_factor) c.doors.U_factor)
    c.roof.U_factor) c.floor.U_factor

/-- Maximum of the five component U-factors. -/
def componentUmax (c : EnvelopeComponents) : ℝ :=
  max (max (max (max c.walls.U_factor c.windows.U_factor) c.doors.U_factor)
    c.roof.U_factor) c.floor.U_factor

/-- The wall R-value matrix stays within 8 and 38. -/
lemma wallRValue_bounds (q : InsulationQuality) (e : ConstructionEra) :
    8 ≤ wallRValue q e ∧ wallRValue q e ≤ 38 := by
  refine ⟨?_, ?_⟩ <;> cases q <;> cases e <;> norm_num [wallRValue]

/-- Every construction volumetric heat capacity is positive. -/
lemma constructionVHC_pos (ct : ConstructionType) : 0 < constructionVHC ct := by
  cases ct <;> norm_num [constructionVHC]

/-- Positivity of the time constant from positivity of the summed
conductance-area product and of the volume. -/
lemma tau_pos_of (inp : ResolvedInputs) (c : EnvelopeComponents)
    (hUA : 0 < envelopeUA c) (hA : c.total_area ≠ 0) (hvol : 0 < c.volume) :
    0 < timeConstant inp c := by
  rw [timeConstant_eq inp c hA]
  unfold thermalCapacitance
  exact div_pos (mul_pos (constructionVHC_pos _) hvol) hUA

/-- Strict betweenness of the area-weighted effective U-factor for any
envelope whose wall and roof areas are positive, whose remaining areas
are nonnegative, whose total area is the sum of the five areas, and whose
roof conductance is strictly below its wall conductance. -/
lemma ueff_between (c : EnvelopeComponents)
    (hwall : 0 < c.walls.area) (hwin : 0 ≤ c.windows.area) (hdoor : 0 ≤ c.doors.area)
    (hroof : 0 < c.roof.area) (hfloor : 0 ≤ c.floor.area)
    (hAeq : c.total_area = c.walls.area + c.windows.area + c.doors.area + c.roof.area +
      c.floor.area)
    (hrw : c.roof.U_factor < c.walls.U_factor) :
    componentUmin c < getEffectiveUFactor c ∧
    getEffectiveUFactor c < componentUmax c := by
  have hApos : 0 < c.total_area := by
    rw [hAeq]
    linarith
  have hmw : componentUmin c ≤ c.walls.U_factor :=
    (((min_le_left _ _).trans (min_le_left _ _)).trans (min_le_left _ _)).trans
      (min_le_left _ _)
  have hmwin : componentUmin c ≤ c.windows.U_factor :=
    (((min_le_left _ _).trans (min_le_left _ _)).trans (min_le_left _ _)).trans
      (min_le_right _ _)
  have hmd : componentUmin c ≤ c.doors.U_factor :=
    ((min_le_left _ _).trans (min_le_left _ _)).trans (min_le_right _ _)
  have hmr : componentUmin c ≤ c.roof.U_factor :=
    (min_le_left _ _).trans (min_le_right _ _)
  have hmf : componentUmin c ≤ c.floor.U_factor := min_le_right _ _
  have hMw : c.walls.U_factor ≤ componentUmax c :=
    ((((le_max_left _ _).trans (le_max_left _ _)).trans (le_max_left _ _)).trans
      (le_max_left _ _))
  have hMwin : c.windows.U_factor ≤ componentUmax c :=
    (((le_max_right _ _).trans (le_max_left _ _)).trans (le_max_left _ _)).trans
      (le_max_left _ _)
  have hMd : c.doors.U_factor ≤ componentUmax c :=
    ((le_max_right _ _).trans (le_max_left _ _)).trans (le_max_left _ _)
  have hMr : c.roof.U_factor ≤ componentUmax c :=
    (le_max_right _ _).trans (le_max_left _ _)
  have hMf : c.floor.U_factor ≤ componentUmax c := le_max_right _ _
  have hmwallstrict : componentUmin c < c.walls.U_factor := lt_of_le_of_lt hmr hrw
  have hMroofstrict : c.roof.U_factor < componentUmax c := lt_of_lt_of_le hrw hMw
  constructor
  · rw [getEffectiveUFactor_eq, lt_div_iff₀ hApos, hAeq]
    simp only [envelopeUA]
    nlinarith [mul_nonneg (sub_nonneg.mpr hmwin) hwin, mul_nonneg (sub_nonneg.mpr hmd) hdoor,
      mul_nonneg (sub_nonneg.mpr hmr) hroof.le, mul_nonneg (sub_nonneg.mpr hmf) hfloor,
      mul_pos (sub_pos.mpr hmwallstrict) hwall]
  · rw [getEffectiveUFactor_eq, div_lt_iff₀ hApos, hAeq]
    simp only [envelopeUA]
    nlinarith [mul_nonneg (sub_nonneg.mpr hMwin) hwin, mul_nonneg (sub_nonneg.mpr hMd) hdoor,
      mul_nonneg (sub_nonneg.mpr hMw) hwall.le, mul_nonneg (sub_nonneg.mpr hMf) hfloor,
      mul_pos (sub_pos.mpr hMroofstrict) hroof]

/-- Projection facts of calculateComponents, all definitional. -/
lemma calcComp_total_eq (inp : ResolvedInputs) :
    (calculateComponents inp).total_area =
      (calculateComponents inp).walls.area + (calculateComponents inp).windows.area +
      (calculateComponents inp).doors.area + (calculateComponents inp).roof.area +
      (calculateComponents inp).floor.area := rfl

/-- Roof area is the footprint. -/
lemma calcComp_roof_area (inp : ResolvedInputs) :
    (calculateComponents inp).roof.area = inp.floor_area / inp.num_floors := rfl

/-- Window area is the window fraction of the gross wall area. -/
lemma calcComp_windows_area (inp : ResolvedInputs) :
    (calculateComponents inp).windows.area =
      2 * (Real.sqrt (inp.floor_area / inp.num_floors / 1.5) +
        Real.sqrt (inp.floor_area / inp.num_floors / 1.5) * 1.5) *
        (inp.ceiling_height * inp.num_floors) * (inp.window_area_percent / 100) := rfl

/-- Door area is a fixed area per door. -/
lemma calcComp_doors_area (inp : ResolvedInputs) :
    (calculateComponents inp).doors.area = inp.num_exterior_doors * 21 := rfl

/-- Exposed floor area is the footprint only for a single story. -/
lemma calcComp_floor_area (inp : ResolvedInputs) :
    (calculateComponents inp).floor.area =
      if inp.num_floors = 1 then inp.floor_area / inp.num_floors else 0 := rfl

/-- Conditioned volume. -/
lemma calcComp_volume (inp : ResolvedInputs) :
    (calculateComponents inp).volume =
      inp.floor_area * inp.ceiling_height * inp.num_floors := rfl

/-- Wall conductance. -/
lemma calcComp_walls_U (inp : ResolvedInputs) :
    (calculateComponents inp).walls.U_factor =
      1 / wallRValue inp.insulation_quality inp.construction_era := rfl

/-- Window conductance. -/
lemma calcComp_windows_U (inp : ResolvedInputs) :
    (calculateComponents inp).windows.U_factor = windowUFactor inp.window_type := rfl

/-- Door conductance. -/
lemma calcComp_doors_U (inp : ResolvedInputs) :
    (calculateComponents inp).doors.U_factor = 0.50 := rfl

/-- Roof conductance. -/
lemma calcComp_roof_U (inp : ResolvedInputs) :
    (calculateComponents inp).roof.U_factor =
      1 / (wallRValue inp.insulation_quality inp.construction_era * 1.5) := rfl

/-- Exposed floor conductance. -/
lemma calcComp_floor_U (inp : ResolvedInputs) :
    (calculateComponents inp).floor.U_factor = 0.10 := rfl

/-- Every window U-factor is positive. -/
lemma windowUFactor_pos (w : WindowType) : 0 < windowUFactor w := by
  cases w <;> norm_num [windowUFactor]

/-- C5, counterexample building: one square foot of floor area with all
defaults, a valid input under the claim, whose net wall area is negative
so the area-weighted average escapes above the maximum component
U-factor. -/
def c5Tiny : ResolvedInputs :=
  ⟨1, 72, 85, 8, 8, 1, 15, 2, ConstructionType.woodFrame, ConstructionEra.from1980to2000,
   InsulationQuality.average, WindowType.doublePane, HvacType.centralAC, HvacAge.age10to15,
   14, 50, 5, 52, "02134", none, none, none, none⟩

/-- C5, counterexample: the tiny building is valid in the sense of the
claim, its maximum component U-factor is the door value 0.50, and its
effective U-factor is strictly above that maximum, so it does not lie
strictly between the minimum and maximum component U-factors. -/
theorem c5_counterexample :
    (0 : ℝ) < c5Tiny.floor_area ∧ (0 : ℝ) < c5Tiny.ceiling_height ∧
    (1 : ℝ) ≤ c5Tiny.num_floors ∧
    componentUmax (calculateComponents c5Tiny) = 0.50 ∧
    0.50 < getEffectiveUFactor (calculateComponents c5Tiny) := by
  have hlb : 0 ≤ Real.sqrt ((1 : ℝ) / 1 / 1.5) := Real.sqrt_nonneg _
  have hub : Real.sqrt ((1 : ℝ) / 1 / 1.5) < 0.82 := by
    have harg : (1 : ℝ) / 1 / 1.5 = 2 / 3 := by norm_num
    rw [harg]
    have h := Real.sq_sqrt (show (0 : ℝ) ≤ 2 / 3 by norm_num)
    have hnn := Real.sqrt_nonneg ((2 : ℝ) / 3)
    nlinarith [h, hnn]
  have hmax : componentUmax (calculateComponents c5Tiny) = 0.50 := by
    simp only [componentUmax, calcComp_walls_U, calcComp_windows_U, calcComp_doors_U,
      calcComp_roof_U, calcComp_floor_U, c5Tiny, wallRValue, windowUFactor]
    rw [show max (1 / (13 : ℝ)) 0.49 = 0.49 from max_eq_right (by norm_num),
      show max (0.49 : ℝ) 0.50 = 0.50 from max_eq_right (by norm_num),
      show max (0.50 : ℝ) (1 / ((13 : ℝ) * 1.5)) = 0.50 from max_eq_left (by norm_num),
      show max (0.50 : ℝ) 0.10 = 0.50 from max_eq_left (by norm_num)]
  have hA : 0 < (calculateComponents c5Tiny).total_area := by
    simp only [calculateComponents, c5Tiny]
    simp only [if_true]
    nlinarith [hlb]
  refine ⟨by norm_num [c5Tiny], by norm_num [c5Tiny], by norm_num [c5Tiny], hmax, ?_⟩
  rw [getEffectiveUFactor_eq, lt_div_iff₀ hA]
  simp only [envelopeUA, calculateComponents, getUFactors, c5Tiny, wallRValue, windowUFactor]
  simp only [if_true]
  nlinarith [hlb, hub]

/-- C5, amended: for valid inputs with nonnegative window fraction and
door count whose derived net wall area is positive, the time constant is
strictly positive and the effective U-factor lies strictly between the
minimum and maximum component U-factors.  The tiny-building
counterexample shows the positivity of the net wall area is needed. -/
theorem c5_invariants (inp : ResolvedInputs)
    (hfa : 0 < inp.floor_area) (hch : 0 < inp.ceiling_height) (hnf : 1 ≤ inp.num_floors)
    (hwp : 0 ≤ inp.window_area_percent) (hnd : 0 ≤ inp.num_exterior_doors)
    (hwall : 0 < (calculateComponents inp).walls.area) :
    0 < timeConstant inp (calculateComponents inp) ∧
    componentUmin (calculateComponents inp) < getEffectiveUFactor (calculateComponents inp) ∧
    getEffectiveUFactor (calculateComponents inp) < componentUmax (calculateComponents inp) := by
  have hnf0 : (0 : ℝ) < inp.num_floors := lt_of_lt_of_le one_pos hnf
  have hroofpos : 0 < (calculateComponents inp).roof.area := by
    rw [calcComp_roof_area]
    exact div_pos hfa hnf0
  have hs : 0 ≤ Real.sqrt (inp.floor_area / inp.num_floors / 1.5) := Real.sqrt_nonneg _
  have hwinA : 0 ≤ (calculateComponents inp).windows.area := by
    rw [calcComp_windows_area]
    apply mul_nonneg (mul_nonneg (by linarith) (mul_nonneg hch.le hnf0.le))
    linarith
  have hdoorA : 0 ≤ (calculateComponents inp).doors.area := by
    rw [calcComp_doors_area]
    exact mul_nonneg hnd (by norm_num)
  have hfloorA : 0 ≤ (calculateComponents inp).floor.area := by
    rw [calcComp_floor_area]
    by_cases h : inp.num_floors = 1
    · rw [if_pos h]
      exact (div_pos hfa hnf0).le
    · rw [if_neg h]
  have hR := wallRValue_bounds inp.insulation_quality inp.construction_era
  have hrw : (calculateComponents inp).roof.U_factor <
      (calculateComponents inp).walls.U_factor := by
    rw [calcComp_roof_U, calcComp_walls_U]
    exact one_div_lt_one_div_of_lt (by linarith) (by linarith)
  have hbetween := ueff_between _ hwall hwinA hdoorA hroofpos hfloorA
    (calcComp_total_eq inp) hrw
  have hUwpos : 0 < (calculateComponents inp).walls.U_factor := by
    rw [calcComp_walls_U]
    exact div_pos one_pos (by linarith)
  have hUA : 0 < envelopeUA (calculateComponents inp) := by
    unfold envelopeUA
    have h1 : 0 < (calculateComponents inp).walls.U_factor *
        (calculateComponents inp).walls.area := mul_pos hUwpos hwall
    have h2 : 0 ≤ (calculateComponents inp).windows.U_factor *
        (calculateComponents inp).windows.area := by
      apply mul_nonneg _ hwinA
      rw [calcComp_windows_U]
      exact (windowUFactor_pos _).le
    have h3 : 0 ≤ (calculateComponents inp).doors.U_factor *
        (calculateComponents inp).doors.area := by
      rw [calcComp_doors_U]
      exact mul_nonneg (by norm_num) hdoorA
    have h4 : 0 ≤ (calculateComponents inp).roof.U_factor *
        (calculateComponents inp).roof.area := by
      apply mul_nonneg _ hroofpos.le
      rw [calcComp_roof_U]
      exact (div_pos one_pos (by linarith)).le
    have h5 : 0 ≤ (calculateComponents inp).floor.U_factor *
        (calculateComponents inp).floor.area := by
      rw [calcComp_floor_U]
      exact mul_nonneg (by norm_num) hfloorA
    linarith
  have hA : (calculateComponents inp).total_area ≠ 0 := by
    have : 0 < (calculateComponents inp).total_area := by
      rw [calcComp_total_eq]
      linarith
    exact ne_of_gt this
  have hvol : 0 < (calculateComponents inp).volume := by
    rw [calcComp_volume]
    exact mul_pos (mul_pos hfa hch) hnf0
  exact ⟨tau_pos_of inp _ hUA hA hvol, hbetween⟩

/-- C5, witness: the standard 2000 square foot building satisfies every
hypothesis of the amended invariant theorem, and the invariants hold. -/
theorem c5_witness :
    ((0 : ℝ) < stdInputs.floor_area ∧ (0 : ℝ) < stdInputs.ceiling_height ∧
      (1 : ℝ) ≤ stdInputs.num_floors ∧ (0 : ℝ) ≤ stdInputs.window_area_percent ∧
      (0 : ℝ) ≤ stdInputs.num_exterior_doors ∧
      0 < (calculateComponents stdInputs).walls.area) ∧
    0 < timeConstant stdInputs (calculateComponents stdInputs) ∧
    componentUmin (calculateComponents stdInputs) <
      getEffectiveUFactor (calculateComponents stdInputs) ∧
    getEffectiveUFactor (calculateComponents stdInputs) <
      componentUmax (calculateComponents stdInputs) := by
  have hwall : 0 < (calculateComponents stdInputs).walls.area := by
    simp only [calculateComponents, stdInputs]
    nlinarith [sqrt_std_bounds.1]
  exact ⟨⟨by norm_num [stdInputs], by norm_num [stdInputs], by norm_num [stdInputs],
      by norm_num [stdInputs], by norm_num [stdInputs], hwall⟩,
    c5_invariants stdInputs (by norm_num [stdInputs]) (by norm_num [stdInputs])
      (by norm_num [stdInputs]) (by norm_num [stdInputs]) (by norm_num [stdInputs]) hwall⟩

/-- Time constant of the resolved user inputs, the break-even quantity of
the orchestrator. -/
def tauOf (u : UserInputs) : ℝ :=
  timeConstant (resolveInputs u) (calculateComponents (resolveInputs u))

/-- C6: when the absence duration is strictly below the break-even time
2.5 tau the analysis returns the break-even MAINTAIN recommendation and
its whole result does not depend on the optimizer (the optimizer is not
invoked); when the absence duration reaches the break-even time the
result does depend on the optimizer (it is invoked). -/
theorem c6_breakeven_gate (u : UserInputs) (hval : missingFields u = []) :
    ((resolveInputs u).absence_duration < 2.5 * tauOf u →
      (∀ opt : OptimizerFun,
        (analysisOutcome opt u).recommendation = maintainRecommendation (resolveInputs u)) ∧
      ∀ opt1 opt2 : OptimizerFun, analyzeWith opt1 u = analyzeWith opt2 u) ∧
    (2.5 * tauOf u ≤ (resolveInputs u).absence_duration →
      ∃ opt1 opt2 : OptimizerFun, analyzeWith opt1 u ≠ analyzeWith opt2 u) := by
  constructor
  · intro h
    have h' : (resolveInputs u).absence_duration <
        2.5 * timeConstant (resolveInputs u) (calculateComponents (resolveInputs u)) := h
    constructor
    · intro opt
      simp only [analysisOutcome]
      rw [if_pos h']
    · intro opt1 opt2
      have hout : analysisOutcome opt1 u = analysisOutcome opt2 u := by
        simp only [analysisOutcome]
        rw [if_pos h', if_pos h']
      simp only [analyzeWith, hout]
  · intro h
    have h' : ¬ ((resolveInputs u).absence_duration <
        2.5 * timeConstant (resolveInputs u) (calculateComponents (resolveInputs u))) :=
      not_lt.mpr h
    refine ⟨fun _ _ _ _ Td _ _ =>
        ⟨Action.MAINTAIN, Td, none, 0, none, none, some MaintainReason.absenceTooShort⟩,
      fun _ _ _ _ Td _ _ =>
        ⟨Action.SETBACK, Td, some 0, 0, some ⟨0, 0, 0, 0, 0, 0, 0⟩, some 42, none⟩, ?_⟩
    intro heq
    have h1 : analyzeWith (fun _ _ _ _ Td _ _ =>
        (⟨Action.MAINTAIN, Td, none, 0, none, none,
          some MaintainReason.absenceTooShort⟩ : OptimalResult)) u =
        Except.ok (analysisOutcome (fun _ _ _ _ Td _ _ =>
          ⟨Action.MAINTAIN, Td, none, 0, none, none,
            some MaintainReason.absenceTooShort⟩) u) := by
      simp only [analyzeWith]
      rw [if_pos hval]
    have h2 : analyzeWith (fun _ _ _ _ Td _ _ =>
        (⟨Action.SETBACK, Td, some 0, 0, some ⟨0, 0, 0, 0, 0, 0, 0⟩, some 42,
          none⟩ : OptimalResult)) u =
        Except.ok (analysisOutcome (fun _ _ _ _ Td _ _ =>
          ⟨Action.SETBACK, Td, some 0, 0, some ⟨0, 0, 0, 0, 0, 0, 0⟩, some 42, none⟩) u) := by
      simp only [analyzeWith]
      rw [if_pos hval]
    rw [h1, h2] at heq
    have hout := Except.ok.inj heq
    have hact : (analysisOutcome (fun _ _ _ _ Td _ _ =>
        (⟨Action.MAINTAIN, Td, none, 0, none, none,
          some MaintainReason.absenceTooShort⟩ : OptimalResult)) u).recommendation.action =
        (analysisOutcome (fun _ _ _ _ Td _ _ =>
          (⟨Action.SETBACK, Td, some 0, 0, some ⟨0, 0, 0, 0, 0, 0, 0⟩, some 42,
            none⟩ : OptimalResult)) u).recommendation.action := by
      rw [hout]
    have ha1 : (analysisOutcome (fun _ _ _ _ Td _ _ =>
        (⟨Action.MAINTAIN, Td, none, 0, none, none,
          some MaintainReason.absenceTooShort⟩ : OptimalResult)) u).recommendation.action =
        Action.MAINTAIN := by
      simp only [analysisOutcome]
      rw [if_neg h']
      rfl
    have ha2 : (analysisOutcome (fun _ _ _ _ Td _ _ =>
        (⟨Action.SETBACK, Td, some 0, 0, some ⟨0, 0, 0, 0, 0, 0, 0⟩, some 42,
          none⟩ : OptimalResult)) u).recommendation.action = Action.SETBACK := by
      simp only [analysisOutcome]
      rw [if_neg h']
      rfl
    rw [ha1, ha2] at hact
    exact Action.noConfusion hact

/-- C6, witness building: 2000 square feet, one hour absence. -/
def c6User : UserInputs :=
  ⟨some 2000, some 72, some 85, some 1, none, none, none, none, none, none, none, none,
   none, none, none, none, none, none, none, none, none, none, none⟩

/-- C6, witness theorem: for the witness building the absence of one hour
is below break-even and the analysis result does not depend on the
optimizer. -/
theorem c6_witness :
    missingFields c6User = [] ∧
    (resolveInputs c6User).absence_duration < 2.5 * tauOf c6User ∧
    ∀ opt1 opt2 : OptimizerFun, analyzeWith opt1 c6User = analyzeWith opt2 c6User := by
  have hval : missingFields c6User = [] := by
    simp [missingFields, requiredFieldNames, requiredField, falsyOpt, c6User]
  have henv : calculateComponents (resolveInputs c6User) = calculateComponents stdInputs :=
    rfl
  have hct : (resolveInputs c6User).construction_type = ConstructionType.woodFrame := rfl
  have htau := tau_std_bounds (resolveInputs c6User) henv hct
  have hlt : (resolveInputs c6User).absence_duration < 2.5 * tauOf c6User := by
    have habs : (resolveInputs c6User).absence_duration = 1 := rfl
    rw [habs]
    unfold tauOf
    linarith [htau.1]
  exact ⟨hval, hlt, ((c6_breakeven_gate c6User hval).1 hlt).2⟩

/-- Postcondition claimed for the optimizer: every SETBACK result carries
a stored simulation whose total energy is at most 95 percent of the
maintain baseline and strictly below it, whose hold time is at least half
an hour, whose recovery fits in the absence after drift and buffer, and
whose reported savings percentage is at least 5. -/
def setbackGuarantee (E_maintain absence_hours : ℝ) (r : OptimalResult) : Prop :=
  match r.action with
  | Action.MAINTAIN => True
  | Action.SETBACK =>
    ∃ b, r.energy_breakdown = some b ∧
      b.E_total ≤ 0.95 * E_maintain ∧
      b.E_total < E_maintain ∧
      0.5 ≤ b.time_at_setback ∧
      b.recovery_time ≤ absence_hours - b.drift_time - 0.25 ∧
      ∃ p, r.savings_percentage = some p ∧ 5 ≤ p

/-- C10: whenever findOptimalSetback returns a SETBACK result, the
selected candidate satisfies the stored feasibility checks, its total
three-phase energy is at most 95 percent of the maintain baseline for the
same duration, and it strictly saves energy versus maintaining. -/
theorem c10_setback_guarantees (c : EnvelopeComponents) (hv : HvacInputs)
    (altitude_ft tau T_desired T_outdoor absence_hours : ℝ) :
    setbackGuarantee (energyToMaintain c hv altitude_ft T_desired T_outdoor absence_hours)
      absence_hours
      (findOptimalSetback c hv altitude_ft tau T_desired T_outdoor absence_hours) := by
  unfold findOptimalSetback
  have hinv := searchFold_inv c hv altitude_ft tau T_desired T_outdoor absence_hours
    (energyToMaintain c hv altitude_ft T_desired T_outdoor absence_hours)
    (optimizerCandidates T_desired T_outdoor)
    (energyToMaintain c hv altitude_ft T_desired T_outdoor absence_hours, T_desired, none)
    ⟨le_refl _, Or.inl rfl⟩
  rcases hinv.2 with hnone | ⟨b, hb, hpass, hb0, hbe, hblt⟩
  · simp only [hnone]
    exact trivial
  · simp only [hb]
    set E_m := energyToMaintain c hv altitude_ft T_desired T_outdoor absence_hours with hEm
    have hEmpos : 0 < E_m := lt_of_le_of_lt hb0 (hbe ▸ hblt)
    by_cases h5 : (E_m - b.E_total) / E_m * 100 < 5
    · rw [if_pos h5]
      exact trivial
    · rw [if_neg h5]
      push_neg at h5
      have h95 : b.E_total ≤ 0.95 * E_m := by
        rw [div_mul_eq_mul_div, le_div_iff₀ hEmpos] at h5
        nlinarith
      exact ⟨b, rfl, h95, hbe ▸ hblt, hpass.2, hpass.1, ⟨_, rfl, h5⟩⟩

/-- The C9 failing input: the standard 2000 square foot building, desired
70, outdoor 68.1 (heating, inside the band where the single heating
candidate T_outdoor + 2 lies above the desired temperature), with a
variable absence duration. -/
def c9User (D : ℝ) : UserInputs :=
  ⟨some 2000, some 70, some 68.1, some D, none, none, none, none, none, none, none, none,
   none, none, none, none, none, none, none, none, none, none, none⟩

/-- Resolved form of the C9 input. -/
def c9Resolved (D : ℝ) : ResolvedInputs :=
  ⟨2000, 70, 68.1, D, 8, 1, 15, 2, ConstructionType.woodFrame, ConstructionEra.from1980to2000,
   InsulationQuality.average, WindowType.doublePane, HvacType.centralAC, HvacAge.age10to15,
   14, 50, 5, 52, "02134", none, none, none, none⟩

/-- Defaulting of the C9 input. -/
lemma c9_resolve (D : ℝ) : resolveInputs (c9User D) = c9Resolved D := rfl

/-- The C9 envelope agrees with the standard building envelope. -/
lemma c9_env (D : ℝ) : calculateComponents (c9Resolved D) = calculateComponents stdInputs :=
  rfl

/-- HVAC inputs resolved for the standard building. -/
def hvStd : HvacInputs := ⟨14, HvacAge.age10to15, HvacType.centralAC⟩

/-- Time constant of the standard building. -/
def tauStd : ℝ := timeConstant stdInputs (calculateComponents stdInputs)

/-- Energy-per-degree-hour coefficient of the standard building at the
default altitude of 20 feet. -/
def kStd : ℝ :=
  envelopeUA (calculateComponents stdInputs) / 3412 /
    getCOP hvStd 20

/-- Recovery time of the single heating candidate of the C9 input. -/
def trecStd : ℝ := -tauStd * Real.log (((70 : ℝ) - 68.1) / (70.1 - 68.1))

/-- Bounds for the standard time constant. -/
lemma tauStd_bounds : 76.4 < tauStd ∧ tauStd < 76.49 :=
  tau_std_bounds stdInputs rfl rfl

/-- The coefficient is positive. -/
lemma kStd_pos : 0 < kStd :=
  div_pos (div_pos (lt_trans (by norm_num) envelopeUA_std_bounds.1) (by norm_num))
    (getCOP_pos hvStd 20)

/-- The default zip code maps to 20 feet of altitude. -/
lemma altitude_std : getAltitudeFromZip "02134" = 20 := by
  have h2 : ("02134".take 2) = "02" := by decide
  simp only [getAltitudeFromZip, h2]
  rw [if_neg (by decide : ¬("02" = "80")), if_neg (by decide : ¬("02" = "84")),
    if_neg (by decide : ¬("02" = "87")), if_neg (by decide : ¬("02" = "33")),
    if_neg (by decide : ¬("02" = "90")), if_neg (by decide : ¬("02" = "98"))]
  simp only [if_true]
  norm_num

/-- Maintain energy of the standard building in closed form. -/
lemma energyToMaintain_std (T_desired T_outdoor duration_hours : ℝ) :
    energyToMaintain (calculateComponents stdInputs) hvStd 20 T_desired T_outdoor
      duration_hours = kStd * |T_outdoor - T_desired| * duration_hours := by
  unfold energyToMaintain getPowerConsumption kStd
  rw [heatTransferTotal_eq _ _ _ (ne_of_gt total_area_std_pos), abs_mul,
    abs_of_pos (lt_trans (by norm_num) envelopeUA_std_bounds.1)]
  ring

/-- Bounds for the logarithm of ratio 0.95. -/
lemma log95_bounds : Real.log 0.95 ≤ -(1 / 20) ∧ -(1 / 19) ≤ Real.log 0.95 := by
  constructor
  · have h := Real.log_le_sub_one_of_pos (show (0 : ℝ) < 0.95 by norm_num)
    linarith
  · have hinv : ((0.95 : ℝ))⁻¹ = 20 / 19 := by norm_num
    have h := Real.log_le_sub_one_of_pos (show (0 : ℝ) < (0.95 : ℝ)⁻¹ by norm_num)
    rw [Real.log_inv] at h
    rw [hinv] at h
    linarith

/-- The candidate recovery ratio of the C9 input is 0.95. -/
lemma c9_ratio : (((70 : ℝ) - 68.1) / (70.1 - 68.1)) = 0.95 := by norm_num

/-- Bounds for the candidate recovery time. -/
lemma trecStd_bounds : 3.82 ≤ trecStd ∧ trecStd ≤ 4.03 := by
  obtain ⟨htl, htr⟩ := tauStd_bounds
  obtain ⟨hg1, hg2⟩ := log95_bounds
  unfold trecStd
  rw [c9_ratio]
  constructor <;> nlinarith

/-- The natural drift from desired toward the heating candidate above it
is unreachable: ratio 2 over 1.9 is at least 1. -/
lemma c9_ndt_none : getTimeToReachTemperature tauStd 70 70.1 68.1 = none := by
  apply timeToReach_eq_none
  · rw [show ((70 : ℝ) - 68.1) = 1.9 by norm_num, abs_of_pos (by norm_num)]
    norm_num
  · right
    rw [show ((70.1 : ℝ) - 68.1) = 2 by norm_num, show ((70 : ℝ) - 68.1) = 1.9 by norm_num]
    norm_num

/-- The candidate recovery time is finite with ratio 0.95. -/
lemma c9_rec_some : getTimeToReachTemperature tauStd 70.1 70 68.1 = some trecStd := by
  apply timeToReach_eq_some
  · rw [show ((70.1 : ℝ) - 68.1) = 2 by norm_num, abs_of_pos (by norm_num)]
    norm_num
  · rw [c9_ratio]
    norm_num
  · rw [c9_ratio]
    norm_num

/-- When the heating-case drift loop would break at its very first step,
the source leaves drift time at zero and then replaces it by the cap, and
no cooldown energy accumulates. -/
lemma driftPhaseActive_break0 (c : EnvelopeComponents) (hv : HvacInputs)
    (altitude_ft tau T_desired T_setback T_outdoor max_drift : ℝ)
    (h0 : getTemperatureAtTime tau T_desired T_outdoor 0 ≤ T_setback) :
    driftPhaseActive c hv altitude_ft false tau T_desired T_setback T_outdoor max_drift =
      (max_drift, 0) := by
  have hbreak0 : driftBreak false tau T_desired T_setback T_outdoor 0 := by
    simp only [driftBreak, Bool.false_eq_true, if_false, Nat.cast_zero, zero_mul]
    exact h0
  simp only [driftPhaseActive, driftBreakIdx]
  by_cases hn : ∃ i, i < stepCount max_drift ∧ driftBreak false tau T_desired T_setback
      T_outdoor i
  · rw [dif_pos hn]
    have hfind : Nat.find hn = 0 := by
      rw [Nat.find_eq_zero]
      obtain ⟨i, hi, _⟩ := hn
      exact ⟨by omega, hbreak0⟩
    rw [hfind]
    simp only [Option.getD_some, Finset.range_zero, Finset.sum_empty, Nat.cast_zero,
      zero_mul]
    simp only [if_true]
  · rw [dif_neg hn]
    have hz : stepCount max_drift = 0 := by
      by_contra hz
      exact hn ⟨0, Nat.pos_of_ne_zero hz, hbreak0⟩
    simp only [Option.getD_none, hz, Finset.range_zero, Finset.sum_empty]
    simp only [if_true]

/-- At time zero the building is at the desired temperature, below the
candidate. -/
lemma c9_break0 : getTemperatureAtTime tauStd 70 68.1 0 ≤ 70.1 := by
  simp only [getTemperatureAtTime]
  rw [show (-(0 : ℝ) / tauStd) = 0 by simp, Real.exp_zero]
  norm_num

/-- Each recovery integration step of the C9 candidate draws power
kStd times 1.9 plus a decaying tail bounded by 0.1. -/
lemma c9_term_eval (i : ℕ) :
    ∃ e : ℝ, 0 < e ∧ e ≤ 1 ∧
      getPowerConsumption hvStd 20
        |getComponentHeatTransferTotal (calculateComponents stdInputs)
          (getTemperatureAtTime tauStd 70.1 70 ((i : ℝ) * 0.05)) 68.1| =
        kStd * (1.9 + 0.1 * e) := by
  have htau : 0 < tauStd := lt_trans (by norm_num) tauStd_bounds.1
  have ht : (0 : ℝ) ≤ (i : ℝ) * 0.05 := by positivity
  refine ⟨Real.exp (-((i : ℝ) * 0.05) / tauStd), Real.exp_pos _, ?_, ?_⟩
  · apply Real.exp_le_one_iff.mpr
    rw [neg_div]
    exact neg_nonpos.mpr (div_nonneg ht htau.le)
  · have he0 : 0 < Real.exp (-((i : ℝ) * 0.05) / tauStd) := Real.exp_pos _
    have hUApos : 0 < envelopeUA (calculateComponents stdInputs) :=
      lt_trans (by norm_num) envelopeUA_std_bounds.1
    unfold getPowerConsumption
    rw [heatTransferTotal_eq _ _ _ (ne_of_gt total_area_std_pos)]
    simp only [getTemperatureAtTime]
    rw [show |envelopeUA (calculateComponents stdInputs) *
        (68.1 - (70 + (70.1 - 70) * Real.exp (-((i : ℝ) * 0.05) / tauStd)))| =
        envelopeUA (calculateComponents stdInputs) *
          (1.9 + 0.1 * Real.exp (-((i : ℝ) * 0.05) / tauStd)) from by
      rw [abs_mul, abs_of_pos hUApos, abs_of_nonpos (by nlinarith [he0])]
      ring]
    unfold kStd
    ring

/-- Lower and upper bounds for the time-stepped recovery energy of the
C9 candidate over any nonnegative simulated recovery duration. -/
lemma c9_recovery_bounds (arec : ℝ) (h0 : 0 ≤ arec) :
    kStd * 1.9 * arec ≤
      recoveryEnergy (calculateComponents stdInputs) hvStd 20 tauStd 70 70.1 68.1 arec ∧
    recoveryEnergy (calculateComponents stdInputs) hvStd 20 tauStd 70 70.1 68.1 arec ≤
      kStd * 2 * (arec + 0.05) := by
  have hk := kStd_pos
  have hlowterm : ∀ i ∈ Finset.range (stepCount arec),
      kStd * 1.9 * 0.05 ≤ getPowerConsumption hvStd 20
        |getComponentHeatTransferTotal (calculateComponents stdInputs)
          (getTemperatureAtTime tauStd 70.1 70 ((i : ℝ) * 0.05)) 68.1| * 0.05 := by
    intro i _
    obtain ⟨e, he0, he1, heq⟩ := c9_term_eval i
    rw [heq]
    nlinarith
  have hupterm : ∀ i ∈ Finset.range (stepCount arec),
      getPowerConsumption hvStd 20
        |getComponentHeatTransferTotal (calculateComponents stdInputs)
          (getTemperatureAtTime tauStd 70.1 70 ((i : ℝ) * 0.05)) 68.1| * 0.05 ≤
        kStd * 2 * 0.05 := by
    intro i _
    obtain ⟨e, he0, he1, heq⟩ := c9_term_eval i
    rw [heq]
    nlinarith
  have hcard : ((Finset.range (stepCount arec)).card : ℝ) = (stepCount arec : ℝ) := by
    rw [Finset.card_range]
  have hlow := Finset.card_nsmul_le_sum (Finset.range (stepCount arec)) _ _ hlowterm
  have hup := Finset.sum_le_card_nsmul (Finset.range (stepCount arec)) _ _ hupterm
  rw [Finset.card_range, nsmul_eq_mul] at hlow hup
  have hm1 : arec / 0.05 ≤ (stepCount arec : ℝ) := by
    have := Nat.le_ceil (arec / 0.05)
    simpa [stepCount] using this
  have hm2 : (stepCount arec : ℝ) < arec / 0.05 + 1 := by
    have := Nat.ceil_lt_add_one (show (0 : ℝ) ≤ arec / 0.05 by positivity)
    simpa [stepCount] using this
  have hm1x : arec ≤ (stepCount arec : ℝ) * 0.05 := by
    have := (div_le_iff₀ (show (0 : ℝ) < 0.05 by norm_num)).mp hm1
    linarith
  have hm2x : (stepCount arec : ℝ) * 0.05 < arec + 0.05 := by
    have h := mul_lt_mul_of_pos_right hm2 (show (0 : ℝ) < 0.05 by norm_num)
    rw [add_mul, div_mul_cancel₀ _ (show (0.05 : ℝ) ≠ 0 by norm_num)] at h
    linarith
  unfold recoveryEnergy
  constructor
  · have hstep : kStd * 1.9 * arec ≤ (stepCount arec : ℝ) * (kStd * 1.9 * 0.05) := by
      nlinarith [mul_nonneg (sub_nonneg.mpr hm1x) hk.le]
    exact le_trans hstep hlow
  · have hstep : (stepCount arec : ℝ) * (kStd * 2 * 0.05) ≤ kStd * 2 * (arec + 0.05) := by
      nlinarith [mul_nonneg (sub_nonneg.mpr hm2x.le) hk.le]
    exact le_trans hup hstep

/-- Phase 1 of the C9 candidate: the drift pair is the cap with zero
cooldown energy. -/
lemma c9_driftPair (D : ℝ) :
    setbackDriftPair (calculateComponents stdInputs) hvStd 20
      (if (70 : ℝ) < 68.1 then true else false) tauStd 70 70.1 68.1 D =
      (setbackMaxDrift tauStd D, 0) := by
  rw [if_neg (by norm_num)]
  unfold setbackDriftPair
  rw [c9_ndt_none]
  exact driftPhaseActive_break0 _ _ _ _ _ _ _ _ c9_break0

/-- Drift time of the C9 candidate simulation. -/
lemma c9_ews_drift (D : ℝ) :
    (energyWithSetback (calculateComponents stdInputs) hvStd 20 tauStd 70 70.1 68.1
      D).drift_time = setbackMaxDrift tauStd D := by
  show (setbackDriftPair (calculateComponents stdInputs) hvStd 20
    (if (70 : ℝ) < 68.1 then true else false) tauStd 70 70.1 68.1 D).1 = _
  rw [c9_driftPair]

/-- Simulated recovery duration of the C9 candidate. -/
lemma c9_ews_rec (D : ℝ) :
    (energyWithSetback (calculateComponents stdInputs) hvStd 20 tauStd 70 70.1 68.1
      D).recovery_time = min trecStd (D - setbackMaxDrift tauStd D) := by
  show setbackActualRecovery
    (setbackDriftPair (calculateComponents stdInputs) hvStd 20
      (if (70 : ℝ) < 68.1 then true else false) tauStd 70 70.1 68.1 D).1
    (getTimeToReachTemperature tauStd 70.1 70 68.1) D = _
  rw [c9_driftPair, c9_rec_some]
  rfl

/-- Hold time of the C9 candidate. -/
lemma c9_ews_tas (D : ℝ) :
    (energyWithSetback (calculateComponents stdInputs) hvStd 20 tauStd 70 70.1 68.1
      D).time_at_setback = max 0 (D - setbackMaxDrift tauStd D - trecStd - 0.25) := by
  show setbackTimeAtSetback
    (setbackDriftPair (calculateComponents stdInputs) hvStd 20
      (if (70 : ℝ) < 68.1 then true else false) tauStd 70 70.1 68.1 D).1
    (getTimeToReachTemperature tauStd 70.1 70 68.1) D = _
  rw [c9_driftPair, c9_rec_some]
  rfl

/-- Total energy of the C9 candidate in terms of the phase pieces. -/
lemma c9_ews_E_total (D : ℝ) :
    (energyWithSetback (calculateComponents stdInputs) hvStd 20 tauStd 70 70.1 68.1
      D).E_total =
      kStd * 2 * max 0 (D - setbackMaxDrift tauStd D - trecStd - 0.25) +
        recoveryEnergy (calculateComponents stdInputs) hvStd 20 tauStd 70 70.1 68.1
          (min trecStd (D - setbackMaxDrift tauStd D)) := by
  show (setbackDriftPair (calculateComponents stdInputs) hvStd 20
      (if (70 : ℝ) < 68.1 then true else false) tauStd 70 70.1 68.1 D).2 +
    energyToMaintain (calculateComponents stdInputs) hvStd 20 70.1 68.1
      (setbackTimeAtSetback
        (setbackDriftPair (calculateComponents stdInputs) hvStd 20
          (if (70 : ℝ) < 68.1 then true else false) tauStd 70 70.1 68.1 D).1
        (getTimeToReachTemperature tauStd 70.1 70 68.1) D) +
    recoveryEnergy (calculateComponents stdInputs) hvStd 20 tauStd 70 70.1 68.1
      (setbackActualRecovery
        (setbackDriftPair (calculateComponents stdInputs) hvStd 20
          (if (70 : ℝ) < 68.1 then true else false) tauStd 70 70.1 68.1 D).1
        (getTimeToReachTemperature tauStd 70.1 70 68.1) D) = _
  rw [c9_driftPair, c9_rec_some]
  simp only [setbackTimeAtSetback, setbackActualRecovery]
  rw [energyToMaintain_std]
  rw [show |(68.1 : ℝ) - 70.1| = 2 from by
    rw [abs_of_nonpos (by norm_num)]
    norm_num]
  ring

/-- The drift cap at 200 hours is 60 hours. -/
lemma c9_maxdrift_200 : setbackMaxDrift tauStd 200 = 60 := by
  unfold setbackMaxDrift
  rw [min_eq_right (by nlinarith [tauStd_bounds.1])]
  norm_num

/-- The drift cap at 4000 hours is twice the time constant. -/
lemma c9_maxdrift_4000 : setbackMaxDrift tauStd 4000 = tauStd * 2 := by
  unfold setbackMaxDrift
  exact min_eq_left (by nlinarith [tauStd_bounds.2])

/-- The heating candidate list of the C9 temperatures is the single
temperature 70.1. -/
lemma c9_candidates : optimizerCandidates 70 68.1 = [(70.1 : ℝ)] := by
  have hcool : (if (70 : ℝ) < 68.1 then true else false) = false := by norm_num
  have hlist : optimizerCandidates 70 68.1 = [max ((68.1 : ℝ) + 2) (70 - 15)] := by
    simp only [optimizerCandidates, hcool, setbackCandidates, if_false, Bool.false_eq_true]
  rw [hlist, max_eq_left (by norm_num)]
  norm_num

/-- The absolute temperature difference of the C9 maintain baseline. -/
lemma c9_abs19 : |(68.1 : ℝ) - 70| = 1.9 := by
  rw [abs_of_nonpos (by norm_num)]
  norm_num

/-- The maintain baseline of the C9 input in closed form. -/
lemma c9_Em (D : ℝ) :
    energyToMaintain (calculateComponents stdInputs) hvStd 20 70 68.1 D =
      kStd * 1.9 * D := by
  rw [energyToMaintain_std, c9_abs19]

/-- At 200 hours the single heating candidate is feasible, beats the
baseline by more than five percent, and the optimizer returns SETBACK. -/
lemma c9_opt_200 :
    ∃ r : SetbackEnergy, ∃ p : ℝ,
      findOptimalSetback (calculateComponents stdInputs) hvStd 20 tauStd 70 68.1 200 =
        ⟨Action.SETBACK, 70.1, some (200 - r.recovery_time - 0.25), r.recovery_time,
         some r, some p, none⟩ ∧
      r.E_total < energyToMaintain (calculateComponents stdInputs) hvStd 20 70 68.1 200 := by
  obtain ⟨htl, htr⟩ := trecStd_bounds
  have hk := kStd_pos
  have hdrift : (energyWithSetback (calculateComponents stdInputs) hvStd 20 tauStd 70 70.1
      68.1 200).drift_time = 60 := by
    rw [c9_ews_drift, c9_maxdrift_200]
  have hrec : (energyWithSetback (calculateComponents stdInputs) hvStd 20 tauStd 70 70.1
      68.1 200).recovery_time = trecStd := by
    rw [c9_ews_rec, c9_maxdrift_200]
    exact min_eq_left (by nlinarith)
  have htas : (energyWithSetback (calculateComponents stdInputs) hvStd 20 tauStd 70 70.1
      68.1 200).time_at_setback = 200 - 60 - trecStd - 0.25 := by
    rw [c9_ews_tas, c9_maxdrift_200]
    exact max_eq_right (by nlinarith)
  have hEub : (energyWithSetback (calculateComponents stdInputs) hvStd 20 tauStd 70 70.1
      68.1 200).E_total ≤ 280 * kStd := by
    rw [c9_ews_E_total, c9_maxdrift_200]
    have hmineq : min trecStd ((200 : ℝ) - 60) = trecStd := min_eq_left (by nlinarith)
    have hmaxeq : max 0 ((200 : ℝ) - 60 - trecStd - 0.25) = 200 - 60 - trecStd - 0.25 :=
      max_eq_right (by nlinarith)
    rw [hmineq, hmaxeq]
    have hrecb := (c9_recovery_bounds trecStd (by nlinarith)).2
    nlinarith
  have hc1 : ¬ (200 - (energyWithSetback (calculateComponents stdInputs) hvStd 20 tauStd 70
      70.1 68.1 200).drift_time - 0.25 <
      (energyWithSetback (calculateComponents stdInputs) hvStd 20 tauStd 70 70.1 68.1
        200).recovery_time) := by
    rw [hdrift, hrec]
    exact not_lt.mpr (by nlinarith)
  have hc2 : ¬ ((energyWithSetback (calculateComponents stdInputs) hvStd 20 tauStd 70 70.1
      68.1 200).time_at_setback < 0.5) := by
    rw [htas]
    exact not_lt.mpr (by nlinarith)
  have hc3 : (energyWithSetback (calculateComponents stdInputs) hvStd 20 tauStd 70 70.1
      68.1 200).E_total <
      energyToMaintain (calculateComponents stdInputs) hvStd 20 70 68.1 200 := by
    rw [c9_Em]
    nlinarith
  have h5 : ¬ ((energyToMaintain (calculateComponents stdInputs) hvStd 20 70 68.1 200 -
      (energyWithSetback (calculateComponents stdInputs) hvStd 20 tauStd 70 70.1 68.1
        200).E_total) /
      energyToMaintain (calculateComponents stdInputs) hvStd 20 70 68.1 200 * 100 < 5) := by
    rw [c9_Em]
    apply not_lt.mpr
    rw [div_mul_eq_mul_div, le_div_iff₀ (by nlinarith)]
    nlinarith [energyWithSetback_E_total_nonneg (calculateComponents stdInputs) hvStd 20
      tauStd 70 70.1 68.1 200]
  refine ⟨energyWithSetback (calculateComponents stdInputs) hvStd 20 tauStd 70 70.1 68.1
    200,
    (energyToMaintain (calculateComponents stdInputs) hvStd 20 70 68.1 200 -
      (energyWithSetback (calculateComponents stdInputs) hvStd 20 tauStd 70 70.1 68.1
        200).E_total) /
      energyToMaintain (calculateComponents stdInputs) hvStd 20 70 68.1 200 * 100,
    ?_, hc3⟩
  simp only [findOptimalSetback, c9_candidates, List.foldl_cons, List.foldl_nil,
    candidateStep]
  rw [if_neg hc1, if_neg hc2, if_pos hc3]
  dsimp only
  rw [if_neg h5]

/-- At 4000 hours the same candidate no longer beats the baseline, so the
optimizer returns MAINTAIN with reported savings zero. -/
lemma c9_opt_4000 :
    findOptimalSetback (calculateComponents stdInputs) hvStd 20 tauStd 70 68.1 4000 =
      ⟨Action.MAINTAIN, 70, none, 0, none, none, some MaintainReason.absenceTooShort⟩ := by
  obtain ⟨htl, htr⟩ := trecStd_bounds
  obtain ⟨hta, htb⟩ := tauStd_bounds
  have hk := kStd_pos
  have hdrift : (energyWithSetback (calculateComponents stdInputs) hvStd 20 tauStd 70 70.1
      68.1 4000).drift_time = tauStd * 2 := by
    rw [c9_ews_drift, c9_maxdrift_4000]
  have hrec : (energyWithSetback (calculateComponents stdInputs) hvStd 20 tauStd 70 70.1
      68.1 4000).recovery_time = trecStd := by
    rw [c9_ews_rec, c9_maxdrift_4000]
    exact min_eq_left (by nlinarith)
  have htas : (energyWithSetback (calculateComponents stdInputs) hvStd 20 tauStd 70 70.1
      68.1 4000).time_at_setback = 4000 - tauStd * 2 - trecStd - 0.25 := by
    rw [c9_ews_tas, c9_maxdrift_4000]
    exact max_eq_right (by nlinarith)
  have hElb : kStd * 7693 ≤ (energyWithSetback (calculateComponents stdInputs) hvStd 20
      tauStd 70 70.1 68.1 4000).E_total := by
    rw [c9_ews_E_total, c9_maxdrift_4000]
    have hmineq : min trecStd ((4000 : ℝ) - tauStd * 2) = trecStd :=
      min_eq_left (by nlinarith)
    have hmaxeq : max 0 ((4000 : ℝ) - tauStd * 2 - trecStd - 0.25) =
        4000 - tauStd * 2 - trecStd - 0.25 := max_eq_right (by nlinarith)
    rw [hmineq, hmaxeq]
    have hrecb := (c9_recovery_bounds trecStd (by nlinarith)).1
    nlinarith
  have hc1 : ¬ (4000 - (energyWithSetback (calculateComponents stdInputs) hvStd 20 tauStd 70
      70.1 68.1 4000).drift_time - 0.25 <
      (energyWithSetback (calculateComponents stdInputs) hvStd 20 tauStd 70 70.1 68.1
        4000).recovery_time) := by
    rw [hdrift, hrec]
    exact not_lt.mpr (by nlinarith)
  have hc2 : ¬ ((energyWithSetback (calculateComponents stdInputs) hvStd 20 tauStd 70 70.1
      68.1 4000).time_at_setback < 0.5) := by
    rw [htas]
    exact not_lt.mpr (by nlinarith)
  have hc3 : ¬ ((energyWithSetback (calculateComponents stdInputs) hvStd 20 tauStd 70 70.1
      68.1 4000).E_total <
      energyToMaintain (calculateComponents stdInputs) hvStd 20 70 68.1 4000) := by
    rw [c9_Em]
    exact not_lt.mpr (by nlinarith)
  simp only [findOptimalSetback, c9_candidates, List.foldl_cons, List.foldl_nil,
    candidateStep]
  rw [if_neg hc1, if_neg hc2, if_neg hc3]

/-- Absence duration of the C9 resolved input. -/
lemma c9_abs_field (D : ℝ) : (c9Resolved D).absence_duration = D := rfl

/-- Desired temperature of the C9 resolved input. -/
lemma c9_des_field (D : ℝ) : (c9Resolved D).desired_temp = 70 := rfl

/-- Outdoor temperature of the C9 resolved input. -/
lemma c9_out_field (D : ℝ) : (c9Resolved D).outdoor_temp = 68.1 := rfl

/-- Zip code of the C9 resolved input. -/
lemma c9_zip_field (D : ℝ) : (c9Resolved D).zip_code = "02134" := rfl

/-- Humidity of the C9 resolved input. -/
lemma c9_hum_field (D : ℝ) : (c9Resolved D).humidity = 50 := rfl

/-- HVAC inputs of the C9 resolved input. -/
lemma c9_hv_field (D : ℝ) :
    (⟨(c9Resolved D).seer_rating, (c9Resolved D).hvac_age, (c9Resolved D).hvac_type⟩ :
      HvacInputs) = hvStd := rfl

/-- The altitude carried through the psychrometric bundle. -/
lemma airProps_alt (T_db RH altitude_ft : ℝ) :
    (getAirProperties T_db RH altitude_ft).altitude_ft = altitude_ft := rfl

/-- Time constant of the C9 resolved input over the standard envelope. -/
lemma c9_tau (D : ℝ) :
    timeConstant (c9Resolved D) (calculateComponents stdInputs) = tauStd := rfl

/-- For a long enough absence the orchestrator hands the C9 input to the
optimizer and wraps its outcome. -/
lemma c9_outcome (D : ℝ) (hbig : ¬ (D < 2.5 * tauStd)) :
    (analysisOutcome findOptimalSetback (c9User D)).recommendation =
      recommendationFromOptimal (c9Resolved D)
        (findOptimalSetback (calculateComponents stdInputs) hvStd 20 tauStd 70 68.1 D) ∧
    (analysisOutcome findOptimalSetback (c9User D)).savings =
      savingsFor (c9Resolved D)
        (energyToMaintain (calculateComponents stdInputs) hvStd 20 70 68.1 D)
        (getElectricityRate (c9Resolved D))
        (recommendationFromOptimal (c9Resolved D)
          (findOptimalSetback (calculateComponents stdInputs) hvStd 20 tauStd 70 68.1 D)) := by
  constructor <;>
  · simp only [analysisOutcome, c9_resolve, c9_env, c9_tau, c9_abs_field, c9_des_field,
      c9_out_field, c9_zip_field, c9_hum_field, c9_hv_field, altitude_std, airProps_alt]
    rw [if_neg hbig]

/-- The SETBACK branch of the recommendation builder, spelled out. -/
lemma reco_SETBACK_full (inp : ResolvedInputs) (st : ℝ) (rt : Option ℝ) (rv : ℝ)
    (eb : Option SetbackEnergy) (sp : Option ℝ) (rs : Option MaintainReason) :
    recommendationFromOptimal inp ⟨Action.SETBACK, st, rt, rv, eb, sp, rs⟩ =
      ⟨Action.SETBACK, inp.desired_temp, ((round st : ℤ) : ℝ),
       some (addHours (inp.absence_start_hour.getD 8) (rt.getD 0)),
       some (addHours (inp.absence_start_hour.getD 8) inp.absence_duration),
       rv, none, eb, sp⟩ := rfl

/-- The MAINTAIN branch of the recommendation builder, spelled out. -/
lemma reco_MAINTAIN_full (inp : ResolvedInputs) (st : ℝ) (rt : Option ℝ) (rv : ℝ)
    (eb : Option SetbackEnergy) (sp : Option ℝ) (rs : Option MaintainReason) :
    recommendationFromOptimal inp ⟨Action.MAINTAIN, st, rt, rv, eb, sp, rs⟩ =
      ⟨Action.MAINTAIN, inp.desired_temp, inp.desired_temp, none, none, 0, rs,
       none, none⟩ := rfl

/-- Reported percent saved of a SETBACK recommendation. -/
lemma savingsFor_SETBACK_pct (inp : ResolvedInputs) (E_maintain rate t st : ℝ)
    (rc rt : Option ℝ) (rv : ℝ) (rs : Option MaintainReason) (eb : Option SetbackEnergy)
    (sp : Option ℝ) :
    (savingsFor inp E_maintain rate
      ⟨Action.SETBACK, t, st, rc, rt, rv, rs, eb, sp⟩).percent_saved =
      max 0 (E_maintain - (eb.getD ⟨0, 0, 0, 0, 0, 0, 0⟩).E_total) / E_maintain * 100 := rfl

/-- Reported percent saved of a MAINTAIN recommendation is zero. -/
lemma savingsFor_MAINTAIN_pct (inp : ResolvedInputs) (E_maintain rate t st : ℝ)
    (rc rt : Option ℝ) (rv : ℝ) (rs : Option MaintainReason) (eb : Option SetbackEnergy)
    (sp : Option ℝ) :
    (savingsFor inp E_maintain rate
      ⟨Action.MAINTAIN, t, st, rc, rt, rv, rs, eb, sp⟩).percent_saved = 0 := rfl

/-- Percent saved reported by a full analysis, zero on a rejected input. -/
def percentSavedOf (u : UserInputs) : ℝ :=
  match analyzeThermalStrategy u with
  | Except.ok r => r.savings.percent_saved
  | Except.error _ => 0

/-- Recommendation action of a full analysis, MAINTAIN on a rejected
input. -/
def recActionOf (u : UserInputs) : Action :=
  match analyzeThermalStrategy u with
  | Except.ok r => r.recommendation.action
  | Except.error _ => Action.MAINTAIN

/-- C9, evaluation at the failing input: for the fixed standard building
with desired 70 and outdoor 68.1, the analysis at 200 hours reports
SETBACK with strictly positive percent saved, while at the longer 4000
hours it reports MAINTAIN with percent saved zero; the reported percent
saved therefore strictly decreases as the absence duration grows. -/
theorem c9_nonmonotone :
    recActionOf (c9User 200) = Action.SETBACK ∧
    0 < percentSavedOf (c9User 200) ∧
    recActionOf (c9User 4000) = Action.MAINTAIN ∧
    percentSavedOf (c9User 4000) = 0 ∧
    ((200 : ℝ) ≤ 4000) ∧
    percentSavedOf (c9User 4000) < percentSavedOf (c9User 200) := by
  have hm200 : missingFields (c9User 200) = [] := by
    simp [missingFields, requiredFieldNames, requiredField, falsyOpt, c9User]
    norm_num
  have hm4000 : missingFields (c9User 4000) = [] := by
    simp [missingFields, requiredFieldNames, requiredField, falsyOpt, c9User]
    norm_num
  have hok200 : analyzeThermalStrategy (c9User 200) =
      Except.ok (analysisOutcome findOptimalSetback (c9User 200)) := by
    simp only [analyzeThermalStrategy, analyzeWith, hm200]
    simp
  have hok4000 : analyzeThermalStrategy (c9User 4000) =
      Except.ok (analysisOutcome findOptimalSetback (c9User 4000)) := by
    simp only [analyzeThermalStrategy, analyzeWith, hm4000]
    simp
  have hbig200 : ¬ ((200 : ℝ) < 2.5 * tauStd) :=
    not_lt.mpr (by nlinarith [tauStd_bounds.2])
  have hbig4000 : ¬ ((4000 : ℝ) < 2.5 * tauStd) :=
    not_lt.mpr (by nlinarith [tauStd_bounds.2])
  obtain ⟨r, p, hopt, hlt⟩ := c9_opt_200
  have hEmpos : 0 < energyToMaintain (calculateComponents stdInputs) hvStd 20 70 68.1 200 := by
    rw [c9_Em]
    nlinarith [kStd_pos]
  have hreco200 := (c9_outcome 200 hbig200).1
  rw [hopt, reco_SETBACK_full] at hreco200
  have hsav200 := (c9_outcome 200 hbig200).2
  rw [hopt, reco_SETBACK_full] at hsav200
  have hreco4000 := (c9_outcome 4000 hbig4000).1
  rw [c9_opt_4000, reco_MAINTAIN_full] at hreco4000
  have hsav4000 := (c9_outcome 4000 hbig4000).2
  rw [c9_opt_4000, reco_MAINTAIN_full] at hsav4000
  have hact200 : recActionOf (c9User 200) = Action.SETBACK := by
    unfold recActionOf
    rw [hok200]
    dsimp only
    rw [hreco200]
  have hact4000 : recActionOf (c9User 4000) = Action.MAINTAIN := by
    unfold recActionOf
    rw [hok4000]
    dsimp only
    rw [hreco4000]
  have hpct200 : percentSavedOf (c9User 200) =
      max 0 (energyToMaintain (calculateComponents stdInputs) hvStd 20 70 68.1 200 -
        r.E_total) /
        energyToMaintain (calculateComponents stdInputs) hvStd 20 70 68.1 200 * 100 := by
    unfold percentSavedOf
    rw [hok200]
    dsimp only
    rw [hsav200, savingsFor_SETBACK_pct]
    simp only [Option.getD_some]
  have hpct4000 : percentSavedOf (c9User 4000) = 0 := by
    unfold percentSavedOf
    rw [hok4000]
    dsimp only
    rw [hsav4000, savingsFor_MAINTAIN_pct]
  have hsaved : 0 < energyToMaintain (calculateComponents stdInputs) hvStd 20 70 68.1 200 -
      r.E_total := sub_pos.mpr hlt
  have hpos200 : 0 < percentSavedOf (c9User 200) := by
    rw [hpct200, max_eq_right hsaved.le]
    exact mul_pos (div_pos hsaved hEmpos) (by norm_num)
  exact ⟨hact200, hpos200, hact4000, hpct4000, by norm_num, by rw [hpct4000]; exact hpos200⟩

end

end ThermalIQ
